import Mathlib

/-!
Verification of the aptdata storage/indexing layer.

This file gives a shallow embedding of the aptdata Go package (aptdata.go,
airports.go, runways.go, countries.go, regions.go) and proves properties of
the embedded definitions.

Modelling conventions, fixed once for the whole file:

* The bolt key-value store keeps keys in byte-sorted order.  UTF-8 is
  order-preserving, so byte-lexicographic order on keys coincides with
  Lean's `String` order.  A bucket is therefore modelled as an assoc list
  sorted by key, updated by sorted insert-or-replace (`putA`), which is the
  canonical representation of bolt's sorted map.  The program nests buckets
  at most two levels deep (the Runways bucket holds one inner bucket per
  airport), so a `Bucket` carries flat entries plus one level of
  sub-buckets.
* `db.Update` / `db.View` transactions are atomic and intermediate
  transaction states are not observable (single writer).  A loader is
  therefore a pure function from the store and the parsed file to a
  result: `Res.ok` carries the committed store, `Res.err` means the
  transaction rolled back with an error (the caller keeps the old store),
  `Res.panic` models a Go runtime panic (nil dereference, index out of
  range); bolt rolls the transaction back before re-panicking, so no
  writes survive a panic either.
* The tabular-record parsing layer is external to the core: a source file
  is modelled as the list of its rows, each row a list of fields.
  `encoding/csv` behaviour that the loaders rely on is kept: with
  `FieldsPerRecord = 0` (default; airports, countries, regions) the header
  fixes the expected column count and a row with a different count is a
  read error; with `FieldsPerRecord = -1` (runways) no count is checked.
  Reading an empty file yields EOF at the header read, and every later
  read also yields EOF.
* msgpack serialization is modelled at the value level (`MV`): the byte
  layer belongs to the external msgpack library and is bijective, while
  the struct-level encoding the repository relies on (a map from field
  names to primitive values; decoding assigns matching fields, skips
  unknown keys, fails on a type mismatch, and fails with EOF on empty
  input such as a missing key) is embedded faithfully.
* Go `float64` values are never computed with in this package, only parsed
  from a field and stored, so a float is modelled by the literal it was
  parsed from (`strconv.ParseFloat` is a pure function of the literal);
  the zero value `0.0` is distinguished.  `strconv.ParseInt(s, 10, 64)` is
  modelled exactly, including the documented clamp to MinInt64/MaxInt64 on
  range errors.
-/

namespace Aptdata

/-- Error values that the embedded code can produce.  `wrap ctx e` models
`errors.Wrap(e, ctx)`; `eof` models `io.EOF` and the msgpack decode error
on empty input; `fieldCount` models `csv.ErrFieldCount`; `keyRequired`
and `bucketNameRequired` model the bolt errors for an empty key or an
empty bucket name. -/
inductive Err where
  | eof : Err
  | fieldCount : Err
  | typeMismatch : Err
  | keyRequired : Err
  | bucketNameRequired : Err
  | wrap : String → Err → Err
deriving DecidableEq, Repr

/-- Outcome of a store operation: success, an error return (the enclosing
transaction rolled back), or a Go runtime panic (bolt also rolls back
before re-panicking). -/
inductive Res (α : Type) where
  | ok : α → Res α
  | err : Err → Res α
  | panic : String → Res α
deriving DecidableEq, Repr

/-- Model of a Go float64 value.  This package only parses floats from
source fields and stores them (no arithmetic), so a non-zero-value float
is identified by the decimal literal it was parsed from; `zero` is the Go
zero value 0.0 that a failed parse leaves behind. -/
inductive GoFloat where
  | zero : GoFloat
  | lit : String → GoFloat
deriving DecidableEq, Repr

/-- Digits of a decimal literal, most significant first, as a natural
number. -/
def digitsVal (ds : List Char) : Nat :=
  ds.foldl (fun a c => 10 * a + (c.toNat - 48)) 0

/-- Splits an optional leading sign from a numeric literal, returning
(negative, remaining characters). -/
def intParts (s : String) : Bool × List Char :=
  match s.data with
  | '-' :: t => (true, t)
  | '+' :: t => (false, t)
  | l => (false, l)

/-- Whether `strconv.ParseInt(s, 10, 64)` parses `s` without a syntax
error: an optional sign followed by one or more decimal digits
(underscores are rejected for an explicit base). -/
def goIntSyntax (s : String) : Bool :=
  let ds := (intParts s).2
  !ds.isEmpty && ds.all Char.isDigit

/-- Model of `v, _ := strconv.ParseInt(s, 10, 64)` as used by the loaders:
the error is discarded, so a syntax error leaves the zero value 0 and a
range error leaves the clamped value (ParseInt returns MaxInt64 /
MinInt64 together with ErrRange). -/
def goParseInt64 (s : String) : Int :=
  if goIntSyntax s then
    let p := intParts s
    let n : Int := (digitsVal p.2 : Int)
    if p.1 then
      if n ≤ 2 ^ 63 then -n else -(2 ^ 63)
    else
      if n ≤ 2 ^ 63 - 1 then n else 2 ^ 63 - 1
  else 0

/-- Mantissa of a decimal float literal: digits, optionally with one dot,
at least one digit present. -/
def mantissaOK (cs : List Char) : Bool :=
  match cs.span Char.isDigit with
  | (ip, []) => !ip.isEmpty
  | (ip, '.' :: fp) => fp.all Char.isDigit && (!ip.isEmpty || !fp.isEmpty)
  | _ => false

/-- Exponent part of a decimal float literal (after the e/E): optional
sign then one or more digits. -/
def exponentOK (cs : List Char) : Bool :=
  let ds := match cs with
            | '-' :: t => t
            | '+' :: t => t
            | l => l
  !ds.isEmpty && ds.all Char.isDigit

/-- Whether `strconv.ParseFloat(s, 64)` parses `s` without a syntax
error.  Covers the decimal forms and the special values Inf/Infinity/NaN
(case-insensitive, optional sign), which are the forms this data source
can contain; hexadecimal float literals are not modelled. -/
def goFloatSyntax (s : String) : Bool :=
  let cs := match s.data with
            | '-' :: t => t
            | '+' :: t => t
            | l => l
  let lower := cs.map Char.toLower
  if lower = "inf".data ∨ lower = "infinity".data ∨ lower = "nan".data then
    true
  else
    match cs.span (fun c => !(c = 'e' || c = 'E')) with
    | (mant, []) => mantissaOK mant
    | (mant, _ :: ex) => mantissaOK mant && exponentOK ex

/-- Model of `v, _ := strconv.ParseFloat(s, 64)` with the error
discarded: a syntax error leaves the zero value, otherwise the value
determined by the literal (a range error returns ±Inf, still a value of
the literal). -/
def goParseFloat (s : String) : GoFloat :=
  if goFloatSyntax s then GoFloat.lit s else GoFloat.zero

/-- Primitive msgpack value. -/
inductive MVal where
  | str : String → MVal
  | int : Int → MVal
  | float : GoFloat → MVal
  | bool : Bool → MVal
deriving DecidableEq, Repr

/-- Value-level model of an msgpack-encoded byte string: a primitive, or
a map from field names to primitives (how the library encodes these
structs).  The embedded program never nests maps, so deeper nesting is
not representable. -/
inductive MV where
  | prim : MVal → MV
  | map : List (String × MVal) → MV
deriving DecidableEq, Repr

/-- First-match lookup in an assoc list (bolt `Bucket.Get`, which returns
nil for a missing key). -/
def lookupA {α : Type} : List (String × α) → String → Option α
  | [], _ => none
  | (k0, v0) :: t, k => if k = k0 then some v0 else lookupA t k

/-- Lexicographic order on the character lists of two keys, by Unicode
scalar value.  bolt compares keys as byte slices and UTF-8 is
order-preserving, so this is bolt's key order. -/
def charsLtB : List Char → List Char → Bool
  | _, [] => false
  | [], _ :: _ => true
  | a :: as, b :: bs =>
    if a.toNat < b.toNat then true
    else if b.toNat < a.toNat then false
    else charsLtB as bs

/-- bolt's byte order on keys. -/
def keyLtB (a b : String) : Bool :=
  charsLtB a.data b.data

/-- Sorted insert-or-replace (bolt `Bucket.Put` / `CreateBucketIfNotExists`
on the sorted key space). -/
def putA {α : Type} : List (String × α) → String → α → List (String × α)
  | [], k, v => [(k, v)]
  | (k0, v0) :: t, k, v =>
    if keyLtB k k0 then (k, v) :: (k0, v0) :: t
    else if k = k0 then (k, v) :: t
    else (k0, v0) :: putA t k v

/-- Removal of a key (bolt `Tx.DeleteBucket`). -/
def removeA {α : Type} (l : List (String × α)) (k : String) : List (String × α) :=
  l.filter (fun kv => !(kv.1 == k))

/-- An inner (nested) bucket: this program stores only flat entries in
nested buckets. -/
structure InnerBucket where
  entries : List (String × MV)
deriving DecidableEq, Repr

/-- A top-level bucket: flat entries plus nested buckets (only the
Runways bucket ever holds nested buckets in this program). -/
structure Bucket where
  entries : List (String × MV)
  subs : List (String × InnerBucket)
deriving DecidableEq, Repr

/-- The bolt database file: the top-level buckets. -/
structure DB where
  buckets : List (String × Bucket)
deriving DecidableEq, Repr

/-- The store of a freshly created database file (`OpenDB` on a new
path). -/
def emptyDB : DB := ⟨[]⟩

/-- The empty bucket. -/
def emptyBucket : Bucket := ⟨[], []⟩

/-- `tx.CreateBucketIfNotExists(name)` followed by `tx.Bucket(name)`:
the existing bucket, or a fresh empty one. -/
def bucketOr (db : DB) (name : String) : Bucket :=
  (lookupA db.buckets name).getD emptyBucket

/-- Airport record (airports.go). -/
structure Airport where
  Code : String
  Name : String
  Latitude : GoFloat
  Longitude : GoFloat
  Elevation : Int
  City : String
  Region : String
  Country : String
  Continent : String
  Iata : String
deriving DecidableEq, Repr

/-- Runway record (runways.go). -/
structure Runway where
  Airport : String
  Length : Int
  Width : Int
  Surface : String
  Lighted : Bool
  Closed : Bool
  End1Name : String
  End1Latitude : GoFloat
  End1Longitude : GoFloat
  End1Elevation : Int
  End1Heading : Int
  End1Displaced : Int
  End2Name : String
  End2Latitude : GoFloat
  End2Longitude : GoFloat
  End2Elevation : Int
  End2Heading : Int
  End2Displaced : Int
deriving DecidableEq, Repr

/-- Country record (countries.go). -/
structure Country where
  Code : String
  Name : String
deriving DecidableEq, Repr

/-- Region record (regions.go). -/
structure Region where
  Code : String
  LocalCode : String
  Name : String
  Country : String
deriving DecidableEq, Repr

/-- A parsed source row. -/
abbrev Row := List String

/-- A parsed source file: the rows in order, the header first when one is
present.  A completely empty file is the empty list. -/
abbrev SourceFile := List Row

/-- msgpack.Marshal of an Airport: a map from field names to field
values, never failing for these field types. -/
def marshalAirport (a : Airport) : MV :=
  MV.map [("Code", .str a.Code), ("Name", .str a.Name),
    ("Latitude", .float a.Latitude), ("Longitude", .float a.Longitude),
    ("Elevation", .int a.Elevation), ("City", .str a.City),
    ("Region", .str a.Region), ("Country", .str a.Country),
    ("Continent", .str a.Continent), ("Iata", .str a.Iata)]

/-- msgpack.Marshal of a Runway. -/
def marshalRunway (r : Runway) : MV :=
  MV.map [("Airport", .str r.Airport), ("Length", .int r.Length),
    ("Width", .int r.Width), ("Surface", .str r.Surface),
    ("Lighted", .bool r.Lighted), ("Closed", .bool r.Closed),
    ("End1Name", .str r.End1Name), ("End1Latitude", .float r.End1Latitude),
    ("End1Longitude", .float r.End1Longitude),
    ("End1Elevation", .int r.End1Elevation),
    ("End1Heading", .int r.End1Heading),
    ("End1Displaced", .int r.End1Displaced),
    ("End2Name", .str r.End2Name), ("End2Latitude", .float r.End2Latitude),
    ("End2Longitude", .float r.End2Longitude),
    ("End2Elevation", .int r.End2Elevation),
    ("End2Heading", .int r.End2Heading),
    ("End2Displaced", .int r.End2Displaced)]

/-- msgpack.Marshal of a Country. -/
def marshalCountry (c : Country) : MV :=
  MV.map [("Code", .str c.Code), ("Name", .str c.Name)]

/-- msgpack.Marshal of a Region. -/
def marshalRegion (r : Region) : MV :=
  MV.map [("Code", .str r.Code), ("LocalCode", .str r.LocalCode),
    ("Name", .str r.Name), ("Country", .str r.Country)]

/-- The Airport zero value a decode starts from. -/
def zeroAirport : Airport :=
  ⟨"", "", .zero, .zero, 0, "", "", "", "", ""⟩

/-- The Runway zero value a decode starts from. -/
def zeroRunway : Runway :=
  ⟨"", 0, 0, "", false, false, "", .zero, .zero, 0, 0, 0, "", .zero, .zero, 0, 0, 0⟩

/-- Decoder step for one map entry of an Airport: a matching field name
with the right primitive type assigns the field, a matching name with a
wrong type is a decode error, an unknown name is skipped. -/
def airportField (a : Airport) (kv : String × MVal) : Except Err Airport :=
  match kv with
  | ("Code", .str v) => .ok { a with Code := v }
  | ("Code", _) => .error .typeMismatch
  | ("Name", .str v) => .ok { a with Name := v }
  | ("Name", _) => .error .typeMismatch
  | ("Latitude", .float v) => .ok { a with Latitude := v }
  | ("Latitude", _) => .error .typeMismatch
  | ("Longitude", .float v) => .ok { a with Longitude := v }
  | ("Longitude", _) => .error .typeMismatch
  | ("Elevation", .int v) => .ok { a with Elevation := v }
  | ("Elevation", _) => .error .typeMismatch
  | ("City", .str v) => .ok { a with City := v }
  | ("City", _) => .error .typeMismatch
  | ("Region", .str v) => .ok { a with Region := v }
  | ("Region", _) => .error .typeMismatch
  | ("Country", .str v) => .ok { a with Country := v }
  | ("Country", _) => .error .typeMismatch
  | ("Continent", .str v) => .ok { a with Continent := v }
  | ("Continent", _) => .error .typeMismatch
  | ("Iata", .str v) => .ok { a with Iata := v }
  | ("Iata", _) => .error .typeMismatch
  | _ => .ok a

/-- Decoder step for one map entry of a Runway. -/
def runwayField (r : Runway) (kv : String × MVal) : Except Err Runway :=
  match kv with
  | ("Airport", .str v) => .ok { r with Airport := v }
  | ("Airport", _) => .error .typeMismatch
  | ("Length", .int v) => .ok { r with Length := v }
  | ("Length", _) => .error .typeMismatch
  | ("Width", .int v) => .ok { r with Width := v }
  | ("Width", _) => .error .typeMismatch
  | ("Surface", .str v) => .ok { r with Surface := v }
  | ("Surface", _) => .error .typeMismatch
  | ("Lighted", .bool v) => .ok { r with Lighted := v }
  | ("Lighted", _) => .error .typeMismatch
  | ("Closed", .bool v) => .ok { r with Closed := v }
  | ("Closed", _) => .error .typeMismatch
  | ("End1Name", .str v) => .ok { r with End1Name := v }
  | ("End1Name", _) => .error .typeMismatch
  | ("End1Latitude", .float v) => .ok { r with End1Latitude := v }
  | ("End1Latitude", _) => .error .typeMismatch
  | ("End1Longitude", .float v) => .ok { r with End1Longitude := v }
  | ("End1Longitude", _) => .error .typeMismatch
  | ("End1Elevation", .int v) => .ok { r with End1Elevation := v }
  | ("End1Elevation", _) => .error .typeMismatch
  | ("End1Heading", .int v) => .ok { r with End1Heading := v }
  | ("End1Heading", _) => .error .typeMismatch
  | ("End1Displaced", .int v) => .ok { r with End1Displaced := v }
  | ("End1Displaced", _) => .error .typeMismatch
  | ("End2Name", .str v) => .ok { r with End2Name := v }
  | ("End2Name", _) => .error .typeMismatch
  | ("End2Latitude", .float v) => .ok { r with End2Latitude := v }
  | ("End2Latitude", _) => .error .typeMismatch
  | ("End2Longitude", .float v) => .ok { r with End2Longitude := v }
  | ("End2Longitude", _) => .error .typeMismatch
  | ("End2Elevation", .int v) => .ok { r with End2Elevation := v }
  | ("End2Elevation", _) => .error .typeMismatch
  | ("End2Heading", .int v) => .ok { r with End2Heading := v }
  | ("End2Heading", _) => .error .typeMismatch
  | ("End2Displaced", .int v) => .ok { r with End2Displaced := v }
  | ("End2Displaced", _) => .error .typeMismatch
  | _ => .ok r

/-- Decoder step for one map entry of a Country. -/
def countryField (c : Country) (kv : String × MVal) : Except Err Country :=
  match kv with
  | ("Code", .str v) => .ok { c with Code := v }
  | ("Code", _) => .error .typeMismatch
  | ("Name", .str v) => .ok { c with Name := v }
  | ("Name", _) => .error .typeMismatch
  | _ => .ok c

/-- Decoder step for one map entry of a Region. -/
def regionField (r : Region) (kv : String × MVal) : Except Err Region :=
  match kv with
  | ("Code", .str v) => .ok { r with Code := v }
  | ("Code", _) => .error .typeMismatch
  | ("LocalCode", .str v) => .ok { r with LocalCode := v }
  | ("LocalCode", _) => .error .typeMismatch
  | ("Name", .str v) => .ok { r with Name := v }
  | ("Name", _) => .error .typeMismatch
  | ("Country", .str v) => .ok { r with Country := v }
  | ("Country", _) => .error .typeMismatch
  | _ => .ok r

/-- msgpack.Unmarshal of stored bytes into an Airport.  `none` models
`Bucket.Get` returning nil for a missing key: decoding empty input is an
EOF error.  A non-map value is a type mismatch. -/
def unmarshalAirport : Option MV → Except Err Airport
  | none => .error .eof
  | some (MV.map l) => l.foldlM airportField zeroAirport
  | some _ => .error .typeMismatch

/-- msgpack.Unmarshal of stored bytes into a Runway. -/
def unmarshalRunway : Option MV → Except Err Runway
  | none => .error .eof
  | some (MV.map l) => l.foldlM runwayField zeroRunway
  | some _ => .error .typeMismatch

/-- msgpack.Unmarshal of stored bytes into a Country. -/
def unmarshalCountry : Option MV → Except Err Country
  | none => .error .eof
  | some (MV.map l) => l.foldlM countryField ⟨"", ""⟩
  | some _ => .error .typeMismatch

/-- msgpack.Unmarshal of stored bytes into a Region. -/
def unmarshalRegion : Option MV → Except Err Region
  | none => .error .eof
  | some (MV.map l) => l.foldlM regionField ⟨"", "", "", ""⟩
  | some _ => .error .typeMismatch

/-- One airports.csv data row turned into the Airport record the loader
stores (airports.go:58-70): numeric fields via ParseFloat/ParseInt with
the error discarded, the remaining fields by column index. -/
def rowToAirport (r : Row) : Airport :=
  { Code := r.getD 1 "", Name := r.getD 3 "",
    Latitude := goParseFloat (r.getD 4 ""),
    Longitude := goParseFloat (r.getD 5 ""),
    Elevation := goParseInt64 (r.getD 6 ""),
    City := r.getD 10 "", Region := r.getD 9 "", Country := r.getD 8 "",
    Continent := r.getD 7 "", Iata := r.getD 13 "" }

/-- One runways.csv data row turned into the Runway record the loader
stores.  The source parses end1Elevation from column 11 and end1Heading
from column 12 (runways.go:75-76) but the positional struct literal
passes end1Heading before end1Elevation (runways.go:93-94), so the
stored End1Elevation field holds column 12 and the stored End1Heading
field holds column 11; end 2 is passed in field order. -/
def rowToRunway (r : Row) : Runway :=
  { Airport := r.getD 2 "",
    Length := goParseInt64 (r.getD 3 ""),
    Width := goParseInt64 (r.getD 4 ""),
    Surface := r.getD 5 "",
    Lighted := r.getD 6 "" = "1",
    Closed := r.getD 7 "" = "1",
    End1Name := r.getD 8 "",
    End1Latitude := goParseFloat (r.getD 9 ""),
    End1Longitude := goParseFloat (r.getD 10 ""),
    End1Elevation := goParseInt64 (r.getD 12 ""),
    End1Heading := goParseInt64 (r.getD 11 ""),
    End1Displaced := goParseInt64 (r.getD 13 ""),
    End2Name := r.getD 14 "",
    End2Latitude := goParseFloat (r.getD 15 ""),
    End2Longitude := goParseFloat (r.getD 16 ""),
    End2Elevation := goParseInt64 (r.getD 17 ""),
    End2Heading := goParseInt64 (r.getD 18 ""),
    End2Displaced := goParseInt64 (r.getD 19 "") }

/-- One countries.csv data row turned into the Country record
(countries.go: `Country{record[1], record[2]}`). -/
def rowToCountry (r : Row) : Country :=
  ⟨r.getD 1 "", r.getD 2 ""⟩

/-- One regions.csv data row turned into the Region record
(regions.go: `Region{record[1], record[2], record[3], record[5]}`). -/
def rowToRegion (r : Row) : Region :=
  ⟨r.getD 1 "", r.getD 2 "", r.getD 3 "", r.getD 5 ""⟩

/-- The net effect of one airports row on the Airports bucket entries:
`b.Put([]byte(record[1]), m)`. -/
def aptStep (es : List (String × MV)) (r : Row) : List (String × MV) :=
  putA es (r.getD 1 "") (marshalAirport (rowToAirport r))

/-- The net effect of one countries row on the Countries bucket
entries. -/
def ctyStep (es : List (String × MV)) (r : Row) : List (String × MV) :=
  putA es (r.getD 1 "") (marshalCountry (rowToCountry r))

/-- The net effect of one regions row on the Regions bucket entries. -/
def rgnStep (es : List (String × MV)) (r : Row) : List (String × MV) :=
  putA es (r.getD 1 "") (marshalRegion (rowToRegion r))

/-- The composite key of a runway within its airport's inner bucket:
`record[8] + "/" + record[14]`. -/
def rwyKey (r : Row) : String :=
  r.getD 8 "" ++ "/" ++ r.getD 14 ""

/-- The net effect of one runways row on the Runways bucket's nested
buckets: `b.CreateBucketIfNotExists([]byte(record[2]))` then
`b2.Put([]byte(record[8]+"/"+record[14]), m)`. -/
def rwyStep (subs : List (String × InnerBucket)) (r : Row) :
    List (String × InnerBucket) :=
  let code := r.getD 2 ""
  let inner := (lookupA subs code).getD ⟨[]⟩
  putA subs code ⟨putA inner.entries (rwyKey r) (marshalRunway (rowToRunway r))⟩

/-- The loop body of loadAirports over the data rows.  `n` is the column
count the csv reader fixed from the header (`FieldsPerRecord`); a row
with a different count is a read error that aborts the transaction
(airports.go:54-56).  Indexing a too-short row is a Go panic; an empty
key makes `b.Put` fail with ErrKeyRequired (wrapped "database put"). -/
def airportsLoop (n : Nat) (es : List (String × MV)) :
    List Row → Res (List (String × MV))
  | [] => .ok es
  | r :: rest =>
    if r.length = n then
      if 14 ≤ r.length then
        if r.getD 1 "" = "" then .err (.wrap "database put" .keyRequired)
        else airportsLoop n (aptStep es r) rest
      else .panic "index out of range"
    else .err (.wrap "airport read" .fieldCount)

/-- The loop body of loadCountries over the data rows. -/
def countriesLoop (n : Nat) (es : List (String × MV)) :
    List Row → Res (List (String × MV))
  | [] => .ok es
  | r :: rest =>
    if r.length = n then
      if 3 ≤ r.length then
        if r.getD 1 "" = "" then .err (.wrap "database put" .keyRequired)
        else countriesLoop n (ctyStep es r) rest
      else .panic "index out of range"
    else .err (.wrap "country read" .fieldCount)

/-- The loop body of loadRegions over the data rows. -/
def regionsLoop (n : Nat) (es : List (String × MV)) :
    List Row → Res (List (String × MV))
  | [] => .ok es
  | r :: rest =>
    if r.length = n then
      if 6 ≤ r.length then
        if r.getD 1 "" = "" then .err (.wrap "database put" .keyRequired)
        else regionsLoop n (rgnStep es r) rest
      else .panic "index out of range"
    else .err (.wrap "region read" .fieldCount)

/-- The loop body of loadRunways over the data rows.  The reader has
`FieldsPerRecord = -1` (runways.go:48), so no column count is checked: a
row of any length is returned; indexing past column 19 on a short row is
a Go panic, and an empty airport code makes CreateBucketIfNotExists fail
(wrapped "bucket creation"). -/
def runwaysLoop (subs : List (String × InnerBucket)) :
    List Row → Res (List (String × InnerBucket))
  | [] => .ok subs
  | r :: rest =>
    if 20 ≤ r.length then
      if r.getD 2 "" = "" then .err (.wrap "bucket creation" .bucketNameRequired)
      else runwaysLoop (rwyStep subs r) rest
    else .panic "index out of range"

/-- loadAirports (airports.go:32-88): skip the header (a read error
there, e.g. EOF on an empty file, is discarded), then one transaction
that creates the Airports bucket if needed and writes one record per
row; on an error the transaction rolls back (the caller's store is
unchanged). -/
def loadAirports (db : DB) (file : SourceFile) : Res DB :=
  let b0 := bucketOr db "Airports"
  let lr := match file with
            | [] => Res.ok b0.entries
            | header :: rows => airportsLoop header.length b0.entries rows
  match lr with
  | .ok es => .ok ⟨putA db.buckets "Airports" ⟨es, b0.subs⟩⟩
  | .err e => .err e
  | .panic m => .panic m

/-- loadCountries (countries section of the package). -/
def loadCountries (db : DB) (file : SourceFile) : Res DB :=
  let b0 := bucketOr db "Countries"
  let lr := match file with
            | [] => Res.ok b0.entries
            | header :: rows => countriesLoop header.length b0.entries rows
  match lr with
  | .ok es => .ok ⟨putA db.buckets "Countries" ⟨es, b0.subs⟩⟩
  | .err e => .err e
  | .panic m => .panic m

/-- loadRegions (regions.go:24-71). -/
def loadRegions (db : DB) (file : SourceFile) : Res DB :=
  let b0 := bucketOr db "Regions"
  let lr := match file with
            | [] => Res.ok b0.entries
            | header :: rows => regionsLoop header.length b0.entries rows
  match lr with
  | .ok es => .ok ⟨putA db.buckets "Regions" ⟨es, b0.subs⟩⟩
  | .err e => .err e
  | .panic m => .panic m

/-- loadRunways (runways.go:40-123): like the flat loaders, but the
records go into one inner bucket per airport code inside the Runways
bucket, and the reader checks no column count. -/
def loadRunways (db : DB) (file : SourceFile) : Res DB :=
  let b0 := bucketOr db "Runways"
  let lr := match file with
            | [] => Res.ok b0.subs
            | _header :: rows => runwaysLoop b0.subs rows
  match lr with
  | .ok subs => .ok ⟨putA db.buckets "Runways" ⟨b0.entries, subs⟩⟩
  | .err e => .err e
  | .panic m => .panic m

/-- The final transaction of Load (aptdata.go:92-101): create the Meta
bucket if needed and put IsPopulated := msgpack(true). -/
def metaCommit (db : DB) : DB :=
  let b0 := bucketOr db "Meta"
  ⟨putA db.buckets "Meta"
    ⟨putA b0.entries "IsPopulated" (MV.prim (.bool true)), b0.subs⟩⟩

/-- Load (aptdata.go:71-104): the four loaders in their fixed order,
returning the first failure unchanged, then the Meta transaction.  The
data directory is abstracted as the four parsed files it contains. -/
def Load (db : DB) (fa fr fc fg : SourceFile) : Res DB :=
  match loadAirports db fa with
  | .err e => .err e
  | .panic m => .panic m
  | .ok s1 =>
    match loadRunways s1 fr with
    | .err e => .err e
    | .panic m => .panic m
    | .ok s2 =>
      match loadCountries s2 fc with
      | .err e => .err e
      | .panic m => .panic m
      | .ok s3 =>
        match loadRegions s3 fg with
        | .err e => .err e
        | .panic m => .panic m
        | .ok s4 => .ok (metaCommit s4)

/-- The deletion transaction of Reload (aptdata.go:109-141): DeleteBucket
on the five bucket names.  The only deletion failure bolt can produce
for these names is "bucket not found", which the code explicitly treats
as success, so the transaction always commits with the five buckets
removed. -/
def scrub (db : DB) : DB :=
  ⟨removeA (removeA (removeA (removeA (removeA db.buckets
    "Airports") "Runways") "Countries") "Regions") "Meta"⟩

/-- Reload (aptdata.go:108-149): delete the five buckets, then Load. -/
def Reload (db : DB) (fa fr fc fg : SourceFile) : Res DB :=
  Load (scrub db) fa fr fc fg

/-- Populated (aptdata.go:48-67): true iff the Meta bucket exists and
IsPopulated decodes to true; the unmarshal error is ignored, so a
missing key or a non-bool value leaves the flag false.  Every failure
collapses to false. -/
def Populated (db : DB) : Bool :=
  match lookupA db.buckets "Meta" with
  | none => false
  | some b =>
    match lookupA b.entries "IsPopulated" with
    | some (MV.prim (.bool true)) => true
    | _ => false

/-- GetAirport (airports.go:91-105): one read transaction; `tx.Bucket`
returns nil for a missing Airports bucket and `b.Get` on the nil bucket
dereferences it (Go panic); otherwise the stored bytes (nil for a
missing key) are unmarshalled and an error is wrapped "get airport". -/
def GetAirport (db : DB) (ident : String) : Res Airport :=
  match lookupA db.buckets "Airports" with
  | none => .panic "nil bucket dereference"
  | some b =>
    match unmarshalAirport (lookupA b.entries ident) with
    | .ok a => .ok a
    | .error e => .err (.wrap "get airport" e)

/-- GetCountry: one read transaction, same shape as GetAirport. -/
def GetCountry (db : DB) (ident : String) : Res Country :=
  match lookupA db.buckets "Countries" with
  | none => .panic "nil bucket dereference"
  | some b =>
    match unmarshalCountry (lookupA b.entries ident) with
    | .ok c => .ok c
    | .error e => .err (.wrap "get country" e)

/-- GetRegion (regions.go:74-88). -/
def GetRegion (db : DB) (ident : String) : Res Region :=
  match lookupA db.buckets "Regions" with
  | none => .panic "nil bucket dereference"
  | some b =>
    match unmarshalRegion (lookupA b.entries ident) with
    | .ok r => .ok r
    | .error e => .err (.wrap "get region" e)

/-- GetRunways (runways.go:126-145): opens the Runways bucket and the
inner bucket for the airport code, then ForEach over the inner bucket in
key order, ignoring unmarshal errors (a failed decode appends the zero
record).  Both `b.Bucket` on a nil outer bucket and `b2.ForEach` on a
nil inner bucket dereference nil (Go panic). -/
def GetRunways (db : DB) (ident : String) : Res (List Runway) :=
  match lookupA db.buckets "Runways" with
  | none => .panic "nil bucket dereference"
  | some b =>
    match lookupA b.subs ident with
    | none => .panic "nil bucket dereference"
    | some b2 =>
      .ok (b2.entries.map (fun kv =>
        match unmarshalRunway (some kv.2) with
        | .ok r => r
        | .error _ => zeroRunway))

/-! Lemmas about the key order and the sorted assoc-list store. -/

theorem charsLtB_irrefl : ∀ l : List Char, charsLtB l l = false := by
  intro l
  induction l with
  | nil => rfl
  | cons a t ih => simp [charsLtB, ih]

theorem keyLtB_irrefl (k : String) : keyLtB k k = false :=
  charsLtB_irrefl k.data

theorem charsLtB_asymm :
    ∀ l1 l2 : List Char, charsLtB l1 l2 = true → charsLtB l2 l1 = false := by
  intro l1
  induction l1 with
  | nil =>
    intro l2 h
    cases l2 with
    | nil => exact absurd h (by simp [charsLtB])
    | cons b bs => rfl
  | cons a t ih =>
    intro l2 h
    cases l2 with
    | nil => exact absurd h (by simp [charsLtB])
    | cons b bs =>
      by_cases h1 : a.toNat < b.toNat
      · simp [charsLtB, Nat.lt_asymm h1, h1]
      · by_cases h2 : b.toNat < a.toNat
        · simp [charsLtB, h1, h2] at h
        · simp [charsLtB, h1, h2] at h
          simp [charsLtB, h1, h2, ih bs h]

theorem keyLtB_asymm {a b : String} (h : keyLtB a b = true) :
    keyLtB b a = false :=
  charsLtB_asymm a.data b.data h

theorem charsLtB_trans :
    ∀ l1 l2 l3 : List Char, charsLtB l1 l2 = true → charsLtB l2 l3 = true →
      charsLtB l1 l3 = true := by
  intro l1
  induction l1 with
  | nil =>
    intro l2 l3 h12 h23
    cases l3 with
    | nil => cases l2 <;> simp [charsLtB] at h23
    | cons c cs => rfl
  | cons a as ih =>
    intro l2 l3 h12 h23
    cases l2 with
    | nil => simp [charsLtB] at h12
    | cons b bs =>
      cases l3 with
      | nil => simp [charsLtB] at h23
      | cons c cs =>
        by_cases hab : a.toNat < b.toNat
        · by_cases hbc : b.toNat < c.toNat
          · simp [charsLtB, Nat.lt_trans hab hbc]
          · by_cases hcb : c.toNat < b.toNat
            · simp [charsLtB, hbc, hcb] at h23
            · have hbceq : b.toNat = c.toNat :=
                Nat.le_antisymm (Nat.not_lt.mp hcb) (Nat.not_lt.mp hbc)
              have hac : a.toNat < c.toNat := hbceq ▸ hab
              simp [charsLtB, hac]
        · by_cases hba : b.toNat < a.toNat
          · simp [charsLtB, hab, hba] at h12
          · have habeq : a.toNat = b.toNat :=
              Nat.le_antisymm (Nat.not_lt.mp hba) (Nat.not_lt.mp hab)
            simp [charsLtB, hab, hba] at h12
            by_cases hbc : b.toNat < c.toNat
            · have hac : a.toNat < c.toNat := habeq ▸ hbc
              simp [charsLtB, hac]
            · by_cases hcb : c.toNat < b.toNat
              · simp [charsLtB, hbc, hcb] at h23
              · have hbceq : b.toNat = c.toNat :=
                  Nat.le_antisymm (Nat.not_lt.mp hcb) (Nat.not_lt.mp hbc)
                simp [charsLtB, hbc, hcb] at h23
                have hac : ¬ a.toNat < c.toNat := by
                  rw [habeq, hbceq]
                  exact Nat.lt_irrefl _
                have hca : ¬ c.toNat < a.toNat := by
                  rw [habeq, hbceq]
                  exact Nat.lt_irrefl _
                simp [charsLtB, hac, hca, ih bs cs h12 h23]

theorem keyLtB_trans {a b c : String} (h1 : keyLtB a b = true)
    (h2 : keyLtB b c = true) : keyLtB a c = true :=
  charsLtB_trans a.data b.data c.data h1 h2

theorem charsLtB_eq_of_not :
    ∀ l1 l2 : List Char, charsLtB l1 l2 = false → charsLtB l2 l1 = false →
      l1 = l2 := by
  intro l1
  induction l1 with
  | nil =>
    intro l2 h1 _
    cases l2 with
    | nil => rfl
    | cons b bs => simp [charsLtB] at h1
  | cons a t ih =>
    intro l2 h1 h2
    cases l2 with
    | nil => simp [charsLtB] at h2
    | cons b bs =>
      by_cases hab : a.toNat < b.toNat
      · simp [charsLtB, hab] at h1
      · by_cases hba : b.toNat < a.toNat
        · simp [charsLtB, hba, hab] at h2
        · have hn : a.toNat = b.toNat :=
            Nat.le_antisymm (Nat.not_lt.mp hba) (Nat.not_lt.mp hab)
          have hc : a = b :=
            Char.eq_of_val_eq (UInt32.eq_of_toBitVec_eq (BitVec.eq_of_toNat_eq hn))
          subst hc
          simp [charsLtB, hab] at h1 h2
          rw [ih bs h1 h2]

theorem keyLtB_eq_of_not {a b : String} (h1 : keyLtB a b = false)
    (h2 : keyLtB b a = false) : a = b := by
  have hd := charsLtB_eq_of_not a.data b.data h1 h2
  cases a
  cases b
  exact congrArg String.mk hd

theorem keyLtB_cases (k k2 : String) (hk : k ≠ k2) :
    keyLtB k k2 = true ∨ keyLtB k2 k = true := by
  by_cases h1 : keyLtB k k2 = true
  · exact Or.inl h1
  · by_cases h2 : keyLtB k2 k = true
    · exact Or.inr h2
    · have h1f : keyLtB k k2 = false := by simpa using h1
      have h2f : keyLtB k2 k = false := by simpa using h2
      exact absurd (keyLtB_eq_of_not h1f h2f) hk

theorem lookupA_putA_same {α : Type} (l : List (String × α)) (k : String) (v : α) :
    lookupA (putA l k v) k = some v := by
  induction l with
  | nil => simp [putA, lookupA]
  | cons h0 t ih =>
    obtain ⟨k0, v0⟩ := h0
    by_cases h1 : keyLtB k k0 = true
    · simp [putA, h1, lookupA]
    · by_cases h2 : k = k0
      · subst h2
        simp [putA, keyLtB_irrefl, lookupA]
      · simp [putA, h1, h2, lookupA, ih]

theorem lookupA_putA_other {α : Type} (l : List (String × α)) (k : String) (v : α)
    (k2 : String) (hk : k2 ≠ k) : lookupA (putA l k v) k2 = lookupA l k2 := by
  induction l with
  | nil => simp [putA, lookupA, hk]
  | cons h0 t ih =>
    obtain ⟨k0, v0⟩ := h0
    by_cases h1 : keyLtB k k0 = true
    · simp [putA, h1, lookupA, hk]
    · by_cases h2 : k = k0
      · subst h2
        simp [putA, h1, lookupA, hk]
      · simp [putA, h1, h2, lookupA, ih]

theorem putA_putA_same {α : Type} (l : List (String × α)) (k : String) (v w : α) :
    putA (putA l k v) k w = putA l k w := by
  induction l with
  | nil => simp [putA, keyLtB_irrefl]
  | cons h0 t ih =>
    obtain ⟨k0, v0⟩ := h0
    by_cases h1 : keyLtB k k0 = true
    · simp [putA, h1, keyLtB_irrefl]
    · by_cases h2 : k = k0
      · subst h2
        simp [putA, h1, keyLtB_irrefl]
      · simp [putA, h1, h2, ih]

theorem putA_putA_comm {α : Type} (l : List (String × α)) (k : String) (v : α)
    (k2 : String) (w : α) (hk : k ≠ k2) :
    putA (putA l k v) k2 w = putA (putA l k2 w) k v := by
  induction l with
  | nil =>
    rcases keyLtB_cases k k2 hk with h | h
    · simp [putA, h, keyLtB_asymm h, hk, Ne.symm hk]
    · simp [putA, h, keyLtB_asymm h, hk, Ne.symm hk]
  | cons h0 t ih =>
    obtain ⟨k0, v0⟩ := h0
    by_cases e1 : k = k0
    · subst e1
      by_cases l2 : keyLtB k2 k = true
      · simp [putA, keyLtB_irrefl, l2, keyLtB_asymm l2, hk, Ne.symm hk]
      · by_cases e2 : k2 = k
        · exact absurd e2.symm hk
        · simp [putA, keyLtB_irrefl, l2, e2, hk, Ne.symm hk]
    · by_cases e2 : k2 = k0
      · subst e2
        by_cases l1 : keyLtB k k2 = true
        · simp [putA, keyLtB_irrefl, l1, keyLtB_asymm l1, hk, Ne.symm hk]
        · simp [putA, keyLtB_irrefl, l1, e1, hk, Ne.symm hk]
      · by_cases l1 : keyLtB k k0 = true
        · by_cases l2 : keyLtB k2 k0 = true
          · rcases keyLtB_cases k k2 hk with h3 | h3
            · simp [putA, l1, l2, h3, keyLtB_asymm h3, hk, Ne.symm hk]
            · simp [putA, l1, l2, h3, keyLtB_asymm h3, hk, Ne.symm hk]
          · have h02 : keyLtB k0 k2 = true := by
              rcases keyLtB_cases k0 k2 (Ne.symm e2) with h | h
              · exact h
              · exact absurd h l2
            have hkk2 : keyLtB k k2 = true := keyLtB_trans l1 h02
            simp [putA, l1, l2, e2, hkk2, keyLtB_asymm hkk2, hk, Ne.symm hk]
        · by_cases l2 : keyLtB k2 k0 = true
          · have h01 : keyLtB k0 k = true := by
              rcases keyLtB_cases k0 k (Ne.symm e1) with h | h
              · exact h
              · exact absurd h l1
            have hk2k : keyLtB k2 k = true := keyLtB_trans l2 h01
            simp [putA, l1, l2, e1, hk2k, keyLtB_asymm hk2k, hk, Ne.symm hk]
          · simp [putA, l1, l2, e1, e2, ih]

/-! Abstract idempotence of a fold of overwriting store updates: if
updates at the same address collapse (the later one wins) and updates at
different addresses commute, replaying a whole list of updates is the
identity on the state the first replay produced. -/

/-- A loader's write loop: fold the per-row store update over the rows. -/
def runSteps {σ ρ : Type} (step : σ → ρ → σ) (s : σ) (rs : List ρ) : σ :=
  rs.foldl step s

theorem runSteps_absorb {σ ρ : Type} (step : σ → ρ → σ) (same : ρ → ρ → Prop)
    (hcol : ∀ s a b, same a b → step (step s a) b = step s b)
    (hcom : ∀ s a b, ¬ same a b → step (step s a) b = step (step s b) a)
    (r : ρ) :
    ∀ rs : List ρ, (∃ x ∈ rs, same r x) → ∀ s : σ,
      runSteps step (step s r) rs = runSteps step s rs := by
  intro rs
  induction rs with
  | nil =>
    intro hin s
    rcases hin with ⟨x, hx, _⟩
    exact absurd hx (List.not_mem_nil x)
  | cons a t ih =>
    intro hin s
    by_cases hra : same r a
    · show runSteps step (step (step s r) a) t = runSteps step (step s a) t
      rw [hcol s r a hra]
    · rcases hin with ⟨x, hx, hsame⟩
      rcases List.mem_cons.mp hx with hxa | hxt
      · subst hxa
        exact absurd hsame hra
      · show runSteps step (step (step s r) a) t = runSteps step (step s a) t
        rw [hcom s r a hra]
        exact ih ⟨x, hxt, hsame⟩ (step s a)

theorem runSteps_indep {σ ρ : Type} (step : σ → ρ → σ) (same : ρ → ρ → Prop)
    (hcom : ∀ s a b, ¬ same a b → step (step s a) b = step (step s b) a)
    (r : ρ) :
    ∀ rs : List ρ, (∀ x ∈ rs, ¬ same r x) → ∀ s : σ,
      runSteps step (step s r) rs = step (runSteps step s rs) r := by
  intro rs
  induction rs with
  | nil => intro _ s; rfl
  | cons a t ih =>
    intro hall s
    show runSteps step (step (step s r) a) t = step (runSteps step (step s a) t) r
    rw [hcom s r a (hall a (List.mem_cons_self a t))]
    exact ih (fun x hx => hall x (List.mem_cons_of_mem a hx)) (step s a)

theorem runSteps_idem {σ ρ : Type} (step : σ → ρ → σ) (same : ρ → ρ → Prop)
    (hrefl : ∀ a, same a a)
    (hcol : ∀ s a b, same a b → step (step s a) b = step s b)
    (hcom : ∀ s a b, ¬ same a b → step (step s a) b = step (step s b) a) :
    ∀ (rs : List ρ) (s : σ),
      runSteps step (runSteps step s rs) rs = runSteps step s rs := by
  intro rs
  induction rs with
  | nil => intro s; rfl
  | cons a t ih =>
    intro s
    show runSteps step (step (runSteps step (step s a) t) a) t
        = runSteps step (step s a) t
    by_cases hx : ∃ x ∈ t, same a x
    · rw [runSteps_absorb step same hcol hcom a t hx]
      exact ih (step s a)
    · push_neg at hx
      have hX : runSteps step (step s a) t = step (runSteps step s t) a :=
        runSteps_indep step same hcom a t hx s
      rw [hX, hcol _ a a (hrefl a),
        runSteps_indep step same hcom a t hx (runSteps step s t), ih s]

/-! Instantiating the two update laws for the four loaders' steps. -/

theorem aptStep_collapse (es : List (String × MV)) (r r2 : Row)
    (h : r.getD 1 "" = r2.getD 1 "") :
    aptStep (aptStep es r) r2 = aptStep es r2 := by
  simp only [aptStep]
  rw [h, putA_putA_same]

theorem aptStep_comm (es : List (String × MV)) (r r2 : Row)
    (h : ¬ r.getD 1 "" = r2.getD 1 "") :
    aptStep (aptStep es r) r2 = aptStep (aptStep es r2) r := by
  simp only [aptStep]
  exact putA_putA_comm es _ _ _ _ h

theorem ctyStep_collapse (es : List (String × MV)) (r r2 : Row)
    (h : r.getD 1 "" = r2.getD 1 "") :
    ctyStep (ctyStep es r) r2 = ctyStep es r2 := by
  simp only [ctyStep]
  rw [h, putA_putA_same]

theorem ctyStep_comm (es : List (String × MV)) (r r2 : Row)
    (h : ¬ r.getD 1 "" = r2.getD 1 "") :
    ctyStep (ctyStep es r) r2 = ctyStep (ctyStep es r2) r := by
  simp only [ctyStep]
  exact putA_putA_comm es _ _ _ _ h

theorem rgnStep_collapse (es : List (String × MV)) (r r2 : Row)
    (h : r.getD 1 "" = r2.getD 1 "") :
    rgnStep (rgnStep es r) r2 = rgnStep es r2 := by
  simp only [rgnStep]
  rw [h, putA_putA_same]

theorem rgnStep_comm (es : List (String × MV)) (r r2 : Row)
    (h : ¬ r.getD 1 "" = r2.getD 1 "") :
    rgnStep (rgnStep es r) r2 = rgnStep (rgnStep es r2) r := by
  simp only [rgnStep]
  exact putA_putA_comm es _ _ _ _ h

/-- The address a runways row writes to: the airport code selecting the
inner bucket, and the composite end key within it. -/
def rwySame (r r2 : Row) : Prop :=
  r.getD 2 "" = r2.getD 2 "" ∧ rwyKey r = rwyKey r2

theorem rwyStep_collapse (S : List (String × InnerBucket)) (r r2 : Row)
    (h : rwySame r r2) :
    rwyStep (rwyStep S r) r2 = rwyStep S r2 := by
  obtain ⟨hc, hk⟩ := h
  simp only [rwyStep, ← hc, ← hk]
  simp [lookupA_putA_same, putA_putA_same]

theorem rwyStep_comm (S : List (String × InnerBucket)) (r r2 : Row)
    (h : ¬ rwySame r r2) :
    rwyStep (rwyStep S r) r2 = rwyStep (rwyStep S r2) r := by
  by_cases hc : r.getD 2 "" = r2.getD 2 ""
  · have hk : rwyKey r ≠ rwyKey r2 := fun hkk => h ⟨hc, hkk⟩
    simp only [rwyStep, ← hc]
    simp [lookupA_putA_same, putA_putA_same]
    rw [putA_putA_comm _ _ _ _ _ hk]
  · simp only [rwyStep]
    rw [lookupA_putA_other _ _ _ _ (Ne.symm hc),
      lookupA_putA_other _ _ _ _ hc,
      putA_putA_comm _ _ _ _ _ hc]

/-! Well-formedness of a source file of each kind: every data row has
the header's column count (enforced by the csv reader for the three flat
loaders), at least the columns the loader indexes, and a nonempty key
field (bolt rejects an empty key or bucket name).  The runways reader
checks no column count, so only the indexed width and the key matter. -/

abbrev wfAirportsFile : SourceFile → Prop
  | [] => True
  | header :: rows =>
    ∀ r ∈ rows, r.length = header.length ∧ 14 ≤ r.length ∧ r.getD 1 "" ≠ ""

abbrev wfCountriesFile : SourceFile → Prop
  | [] => True
  | header :: rows =>
    ∀ r ∈ rows, r.length = header.length ∧ 3 ≤ r.length ∧ r.getD 1 "" ≠ ""

abbrev wfRegionsFile : SourceFile → Prop
  | [] => True
  | header :: rows =>
    ∀ r ∈ rows, r.length = header.length ∧ 6 ≤ r.length ∧ r.getD 1 "" ≠ ""

abbrev wfRunwaysFile : SourceFile → Prop
  | [] => True
  | _header :: rows =>
    ∀ r ∈ rows, 20 ≤ r.length ∧ r.getD 2 "" ≠ ""

/-! On a well-formed file each write loop runs to the end and is the
fold of its per-row update. -/

theorem airportsLoop_run (n : Nat) :
    ∀ (rows : List Row) (es : List (String × MV)),
      (∀ r ∈ rows, r.length = n ∧ 14 ≤ r.length ∧ r.getD 1 "" ≠ "") →
      airportsLoop n es rows = .ok (runSteps aptStep es rows) := by
  intro rows
  induction rows with
  | nil => intro es _; rfl
  | cons r t ih =>
    intro es h
    obtain ⟨h1, h2, h3⟩ := h r (List.mem_cons_self r t)
    show airportsLoop n es (r :: t) = .ok (runSteps aptStep (aptStep es r) t)
    simp only [airportsLoop]
    rw [if_pos h1, if_pos h2, if_neg h3]
    exact ih (aptStep es r) (fun x hx => h x (List.mem_cons_of_mem r hx))

theorem countriesLoop_run (n : Nat) :
    ∀ (rows : List Row) (es : List (String × MV)),
      (∀ r ∈ rows, r.length = n ∧ 3 ≤ r.length ∧ r.getD 1 "" ≠ "") →
      countriesLoop n es rows = .ok (runSteps ctyStep es rows) := by
  intro rows
  induction rows with
  | nil => intro es _; rfl
  | cons r t ih =>
    intro es h
    obtain ⟨h1, h2, h3⟩ := h r (List.mem_cons_self r t)
    show countriesLoop n es (r :: t) = .ok (runSteps ctyStep (ctyStep es r) t)
    simp only [countriesLoop]
    rw [if_pos h1, if_pos h2, if_neg h3]
    exact ih (ctyStep es r) (fun x hx => h x (List.mem_cons_of_mem r hx))

theorem regionsLoop_run (n : Nat) :
    ∀ (rows : List Row) (es : List (String × MV)),
      (∀ r ∈ rows, r.length = n ∧ 6 ≤ r.length ∧ r.getD 1 "" ≠ "") →
      regionsLoop n es rows = .ok (runSteps rgnStep es rows) := by
  intro rows
  induction rows with
  | nil => intro es _; rfl
  | cons r t ih =>
    intro es h
    obtain ⟨h1, h2, h3⟩ := h r (List.mem_cons_self r t)
    show regionsLoop n es (r :: t) = .ok (runSteps rgnStep (rgnStep es r) t)
    simp only [regionsLoop]
    rw [if_pos h1, if_pos h2, if_neg h3]
    exact ih (rgnStep es r) (fun x hx => h x (List.mem_cons_of_mem r hx))

theorem runwaysLoop_run :
    ∀ (rows : List Row) (subs : List (String × InnerBucket)),
      (∀ r ∈ rows, 20 ≤ r.length ∧ r.getD 2 "" ≠ "") →
      runwaysLoop subs rows = .ok (runSteps rwyStep subs rows) := by
  intro rows
  induction rows with
  | nil => intro subs _; rfl
  | cons r t ih =>
    intro subs h
    obtain ⟨h1, h2⟩ := h r (List.mem_cons_self r t)
    show runwaysLoop subs (r :: t) = .ok (runSteps rwyStep (rwyStep subs r) t)
    simp only [runwaysLoop]
    rw [if_pos h1, if_neg h2]
    exact ih (rwyStep subs r) (fun x hx => h x (List.mem_cons_of_mem r hx))

/-! Shape of a committed loader transaction, and preservation of the
Meta bucket by the four loaders. -/

theorem loadAirports_ok_shape {db : DB} {f : SourceFile} {s : DB}
    (h : loadAirports db f = .ok s) :
    ∃ b, s = ⟨putA db.buckets "Airports" b⟩ := by
  cases f with
  | nil =>
    simp only [loadAirports] at h
    simp at h
    exact ⟨_, h.symm⟩
  | cons hdr rows =>
    simp only [loadAirports] at h
    cases hl : airportsLoop hdr.length (bucketOr db "Airports").entries rows with
    | ok es =>
      rw [hl] at h
      simp at h
      exact ⟨_, h.symm⟩
    | err e => rw [hl] at h; simp at h
    | panic m => rw [hl] at h; simp at h

theorem loadCountries_ok_shape {db : DB} {f : SourceFile} {s : DB}
    (h : loadCountries db f = .ok s) :
    ∃ b, s = ⟨putA db.buckets "Countries" b⟩ := by
  cases f with
  | nil =>
    simp only [loadCountries] at h
    simp at h
    exact ⟨_, h.symm⟩
  | cons hdr rows =>
    simp only [loadCountries] at h
    cases hl : countriesLoop hdr.length (bucketOr db "Countries").entries rows with
    | ok es =>
      rw [hl] at h
      simp at h
      exact ⟨_, h.symm⟩
    | err e => rw [hl] at h; simp at h
    | panic m => rw [hl] at h; simp at h

theorem loadRegions_ok_shape {db : DB} {f : SourceFile} {s : DB}
    (h : loadRegions db f = .ok s) :
    ∃ b, s = ⟨putA db.buckets "Regions" b⟩ := by
  cases f with
  | nil =>
    simp only [loadRegions] at h
    simp at h
    exact ⟨_, h.symm⟩
  | cons hdr rows =>
    simp only [loadRegions] at h
    cases hl : regionsLoop hdr.length (bucketOr db "Regions").entries rows with
    | ok es =>
      rw [hl] at h
      simp at h
      exact ⟨_, h.symm⟩
    | err e => rw [hl] at h; simp at h
    | panic m => rw [hl] at h; simp at h

theorem loadRunways_ok_shape {db : DB} {f : SourceFile} {s : DB}
    (h : loadRunways db f = .ok s) :
    ∃ b, s = ⟨putA db.buckets "Runways" b⟩ := by
  cases f with
  | nil =>
    simp only [loadRunways] at h
    simp at h
    exact ⟨_, h.symm⟩
  | cons hdr rows =>
    simp only [loadRunways] at h
    cases hl : runwaysLoop (bucketOr db "Runways").subs rows with
    | ok subs =>
      rw [hl] at h
      simp at h
      exact ⟨_, h.symm⟩
    | err e => rw [hl] at h; simp at h
    | panic m => rw [hl] at h; simp at h

theorem loadAirports_meta {db : DB} {f : SourceFile} {s : DB}
    (h : loadAirports db f = .ok s) :
    lookupA s.buckets "Meta" = lookupA db.buckets "Meta" := by
  obtain ⟨b, rfl⟩ := loadAirports_ok_shape h
  exact lookupA_putA_other _ _ _ _ (by decide)

theorem loadCountries_meta {db : DB} {f : SourceFile} {s : DB}
    (h : loadCountries db f = .ok s) :
    lookupA s.buckets "Meta" = lookupA db.buckets "Meta" := by
  obtain ⟨b, rfl⟩ := loadCountries_ok_shape h
  exact lookupA_putA_other _ _ _ _ (by decide)

theorem loadRegions_meta {db : DB} {f : SourceFile} {s : DB}
    (h : loadRegions db f = .ok s) :
    lookupA s.buckets "Meta" = lookupA db.buckets "Meta" := by
  obtain ⟨b, rfl⟩ := loadRegions_ok_shape h
  exact lookupA_putA_other _ _ _ _ (by decide)

theorem loadRunways_meta {db : DB} {f : SourceFile} {s : DB}
    (h : loadRunways db f = .ok s) :
    lookupA s.buckets "Meta" = lookupA db.buckets "Meta" := by
  obtain ⟨b, rfl⟩ := loadRunways_ok_shape h
  exact lookupA_putA_other _ _ _ _ (by decide)

theorem Populated_of_meta_none {db : DB}
    (h : lookupA db.buckets "Meta" = none) : Populated db = false := by
  simp [Populated, h]

theorem Populated_metaCommit (db : DB) : Populated (metaCommit db) = true := by
  simp [Populated, metaCommit, lookupA_putA_same]

theorem Load_ok_populated {db : DB} {fa fr fc fg : SourceFile} {s : DB}
    (h : Load db fa fr fc fg = .ok s) : Populated s = true := by
  unfold Load at h
  cases h1 : loadAirports db fa with
  | err e => simp only [h1] at h; exact Res.noConfusion h
  | panic m => simp only [h1] at h; exact Res.noConfusion h
  | ok s1 =>
    simp only [h1] at h
    cases h2 : loadRunways s1 fr with
    | err e => simp only [h2] at h; exact Res.noConfusion h
    | panic m => simp only [h2] at h; exact Res.noConfusion h
    | ok s2 =>
      simp only [h2] at h
      cases h3 : loadCountries s2 fc with
      | err e => simp only [h3] at h; exact Res.noConfusion h
      | panic m => simp only [h3] at h; exact Res.noConfusion h
      | ok s3 =>
        simp only [h3] at h
        cases h4 : loadRegions s3 fg with
        | err e => simp only [h4] at h; exact Res.noConfusion h
        | panic m => simp only [h4] at h; exact Res.noConfusion h
        | ok s4 =>
          simp only [h4, Res.ok.injEq] at h
          rw [← h]
          exact Populated_metaCommit s4

/-- C10: for every loader, a source file that exists but is completely
empty (no rows, not even a header) loads successfully: the EOF from the
header-skipping read is discarded, the write loop sees EOF at once, the
entity's bucket is created (empty when it did not exist) and the
transaction commits with no records written.  On a fresh store each
loader leaves exactly its own empty bucket. -/
theorem c10_empty_source_file (db : DB) :
    loadAirports db [] = .ok ⟨putA db.buckets "Airports" (bucketOr db "Airports")⟩
  ∧ loadRunways db [] = .ok ⟨putA db.buckets "Runways" (bucketOr db "Runways")⟩
  ∧ loadCountries db [] = .ok ⟨putA db.buckets "Countries" (bucketOr db "Countries")⟩
  ∧ loadRegions db [] = .ok ⟨putA db.buckets "Regions" (bucketOr db "Regions")⟩
  ∧ loadAirports emptyDB [] = .ok ⟨[("Airports", emptyBucket)]⟩
  ∧ loadRunways emptyDB [] = .ok ⟨[("Runways", emptyBucket)]⟩
  ∧ loadCountries emptyDB [] = .ok ⟨[("Countries", emptyBucket)]⟩
  ∧ loadRegions emptyDB [] = .ok ⟨[("Regions", emptyBucket)]⟩ :=
  ⟨rfl, rfl, rfl, rfl, rfl, rfl, rfl, rfl⟩

/-- C7: for every entity kind, decoding the encoded record yields the
original record, for all field values of every field type the records
use (strings, 64-bit integers including the extreme magnitudes, floats,
booleans). -/
theorem c7_codec_round_trip :
    (∀ a : Airport, unmarshalAirport (some (marshalAirport a)) = .ok a)
  ∧ (∀ r : Runway, unmarshalRunway (some (marshalRunway r)) = .ok r)
  ∧ (∀ c : Country, unmarshalCountry (some (marshalCountry c)) = .ok c)
  ∧ (∀ g : Region, unmarshalRegion (some (marshalRegion g)) = .ok g) := by
  refine ⟨fun a => ?_, fun r => ?_, fun c => ?_, fun g => ?_⟩
  · obtain ⟨f1, f2, f3, f4, f5, f6, f7, f8, f9, f10⟩ := a
    rfl
  · obtain ⟨f1, f2, f3, f4, f5, f6, f7, f8, f9, f10,
      f11, f12, f13, f14, f15, f16, f17, f18⟩ := r
    rfl
  · obtain ⟨f1, f2⟩ := c
    rfl
  · obtain ⟨f1, f2, f3, f4⟩ := g
    rfl

/-- C9: Reload is exactly the deletion of the five buckets (tolerating
absent buckets, which is the only deletion failure these names can
produce) followed by Load; on a never-populated store with no buckets
the deletion is a no-op, so Reload coincides with a fresh Load of the
same files, and when that Load succeeds the resulting store is
populated. -/
theorem c9_reload_fresh_store (db : DB) (fa fr fc fg : SourceFile) :
    Reload db fa fr fc fg = Load (scrub db) fa fr fc fg
  ∧ scrub emptyDB = emptyDB
  ∧ Reload emptyDB fa fr fc fg = Load emptyDB fa fr fc fg
  ∧ (∀ s : DB, Load emptyDB fa fr fc fg = .ok s → Populated s = true) := by
  refine ⟨rfl, rfl, rfl, ?_⟩
  intro s h
  exact Load_ok_populated h

/-! Concrete source data used to evaluate the embedded code. -/

/-- The runways.csv header: 21 fields, the last empty because of the
trailing extra comma on the first line — the reason the source sets
`FieldsPerRecord = -1`. -/
def runwaysHeader : Row :=
  ["id", "airport_ref", "airport_ident", "length_ft", "width_ft", "surface",
   "lighted", "closed", "le_ident", "le_latitude_deg", "le_longitude_deg",
   "le_elevation_ft", "le_heading_degT", "le_displaced_threshold_ft",
   "he_ident", "he_latitude_deg", "he_longitude_deg", "he_elevation_ft",
   "he_heading_degT", "he_displaced_threshold_ft", ""]

/-- A well-formed 20-column runways row for KSEA: end-1 elevation column
(index 11) is "100" and end-1 heading column (index 12) is "200". -/
def kseaRow : Row :=
  ["1001", "99", "KSEA", "9000", "150", "ASPH", "1", "0",
   "16L", "47.46", "-122.31", "100", "200", "250",
   "34R", "47.47", "-122.30", "170", "260", "300"]

/-- The record the loader stores for kseaRow: End1Elevation holds column
12 and End1Heading column 11 (the swap in the positional struct
literal); end 2 is in field order. -/
def kseaStored : Runway :=
  ⟨"KSEA", 9000, 150, "ASPH", true, false,
   "16L", .lit "47.46", .lit "-122.31", 200, 100, 250,
   "34R", .lit "47.47", .lit "-122.30", 170, 260, 300⟩

/-- The store after loading the single KSEA row on a fresh database. -/
def kseaDB : DB :=
  ⟨[("Runways", ⟨[], [("KSEA", ⟨[("16L/34R", marshalRunway kseaStored)]⟩)]⟩)]⟩

/-- C2: evaluation of the code at the failing input.  For the well-formed
runways row kseaRow the persisted record has End1Elevation = 200 (the
heading column 12) and End1Heading = 100 (the elevation column 11) —
the two end-1 fields land swapped — while the end-2 elevation and
heading (columns 17 and 18) land in their own fields. -/
theorem c2_end1_elevation_heading_swapped :
    loadRunways emptyDB [runwaysHeader, kseaRow] = .ok kseaDB
  ∧ GetRunways kseaDB "KSEA" = .ok [kseaStored]
  ∧ kseaRow.getD 11 "" = "100" ∧ kseaRow.getD 12 "" = "200"
  ∧ kseaStored.End1Elevation = 200 ∧ kseaStored.End1Heading = 100
  ∧ kseaRow.getD 17 "" = "170" ∧ kseaStored.End2Elevation = 170
  ∧ kseaRow.getD 18 "" = "260" ∧ kseaStored.End2Heading = 260 := by
  refine ⟨by decide, by decide, by decide, by decide, by decide,
    by decide, by decide, by decide, by decide, by decide⟩

/-- A store whose Runways bucket has an inner bucket for KSEA holding no
entries. -/
def zeroRwyDB : DB := ⟨[("Runways", ⟨[], [("KSEA", ⟨[]⟩)]⟩)]⟩

/-- C3 counterexample: with the outer Runways namespace present but no
inner namespace for KJFK, GetRunways dereferences the nil inner bucket
(Go panic) instead of failing with a NotFoundError, refuting both the
NotFoundError clause and the no-crash clause at this input. -/
theorem c3_counterexample :
    GetRunways zeroRwyDB "KJFK" = .panic "nil bucket dereference" := by
  decide

/-- C3 amended: GetRunways returns the empty sequence (not an error) when
the outer namespace exists and the inner namespace for the airport
exists but holds no entries; when the inner namespace does not exist the
code calls ForEach on a nil bucket and panics (and likewise dereferences
nil when the outer namespace is missing) rather than failing with a
NotFoundError. -/
theorem c3_runways_lookup_behaviour :
    (∀ (db : DB) (code : String) (b : Bucket) (b2 : InnerBucket),
      lookupA db.buckets "Runways" = some b → lookupA b.subs code = some b2 →
      b2.entries = [] → GetRunways db code = .ok [])
  ∧ (∀ (db : DB) (code : String) (b : Bucket),
      lookupA db.buckets "Runways" = some b → lookupA b.subs code = none →
      GetRunways db code = .panic "nil bucket dereference")
  ∧ (∀ (db : DB) (code : String),
      lookupA db.buckets "Runways" = none →
      GetRunways db code = .panic "nil bucket dereference") := by
  refine ⟨?_, ?_, ?_⟩
  · intro db code b b2 hb hb2 he
    simp [GetRunways, hb, hb2, he]
  · intro db code b hb hb2
    simp [GetRunways, hb, hb2]
  · intro db code hb
    simp [GetRunways, hb]

/-- Witness for C3: the three behaviours at concrete stores. -/
theorem c3_witness :
    GetRunways zeroRwyDB "KSEA" = .ok []
  ∧ GetRunways zeroRwyDB "KJFK" = .panic "nil bucket dereference"
  ∧ GetRunways emptyDB "KSEA" = .panic "nil bucket dereference" :=
  ⟨c3_runways_lookup_behaviour.1 zeroRwyDB "KSEA" ⟨[], [("KSEA", ⟨[]⟩)]⟩ ⟨[]⟩
      (by decide) (by decide) rfl,
   c3_runways_lookup_behaviour.2.1 zeroRwyDB "KJFK" ⟨[], [("KSEA", ⟨[]⟩)]⟩
      (by decide) (by decide),
   c3_runways_lookup_behaviour.2.2 emptyDB "KSEA" (by decide)⟩

/-- The countries.csv header. -/
def countriesHeader : Row := ["id", "code", "name"]

/-- A countries file with the header plus the single row
1,US,United States. -/
def usFile : SourceFile := [countriesHeader, ["1", "US", "United States"]]

/-- The store after loading usFile on a fresh database. -/
def usDB : DB :=
  ⟨[("Countries", ⟨[("US", marshalCountry ⟨"US", "United States"⟩)], []⟩)]⟩

/-- C4 counterexample: on a store without a Countries namespace the
claim requires a NotFoundError, but GetCountry calls Get on the nil
bucket returned by tx.Bucket and panics. -/
theorem c4_counterexample :
    GetCountry emptyDB "US" = .panic "nil bucket dereference" := by
  decide

/-- C4 amended: each single-key accessor does its lookup in one read
transaction; when the namespace exists and the key is absent it fails
with the wrapped EOF decode error (the lookup-miss error), when the
stored bytes do not decode it fails with the wrapped decode error, and
the US example behaves as stated — but when the entity's namespace is
absent the accessor dereferences the nil namespace (panic) instead of
returning a NotFoundError. -/
theorem c4_accessor_errors :
    (∀ (db : DB) (c : String) (b : Bucket),
      lookupA db.buckets "Countries" = some b → lookupA b.entries c = none →
      GetCountry db c = .err (.wrap "get country" .eof))
  ∧ (∀ (db : DB) (c : String) (b : Bucket) (mv : MV) (e : Err),
      lookupA db.buckets "Countries" = some b → lookupA b.entries c = some mv →
      unmarshalCountry (some mv) = .error e →
      GetCountry db c = .err (.wrap "get country" e))
  ∧ (∀ (db : DB) (c : String) (b : Bucket) (mv : MV) (x : Country),
      lookupA db.buckets "Countries" = some b → lookupA b.entries c = some mv →
      unmarshalCountry (some mv) = .ok x → GetCountry db c = .ok x)
  ∧ (∀ (db : DB) (a : String) (b : Bucket),
      lookupA db.buckets "Airports" = some b → lookupA b.entries a = none →
      GetAirport db a = .err (.wrap "get airport" .eof))
  ∧ (∀ (db : DB) (g : String) (b : Bucket),
      lookupA db.buckets "Regions" = some b → lookupA b.entries g = none →
      GetRegion db g = .err (.wrap "get region" .eof))
  ∧ loadCountries emptyDB usFile = .ok usDB
  ∧ GetCountry usDB "US" = .ok ⟨"US", "United States"⟩
  ∧ GetCountry usDB "ZZ" = .err (.wrap "get country" .eof) := by
  refine ⟨?_, ?_, ?_, ?_, ?_, by decide, by decide, by decide⟩
  · intro db c b hb hk
    simp [GetCountry, hb, hk, unmarshalCountry]
  · intro db c b mv e hb hk hu
    simp [GetCountry, hb, hk, hu]
  · intro db c b mv x hb hk hu
    simp [GetCountry, hb, hk, hu]
  · intro db a b hb hk
    simp [GetAirport, hb, hk, unmarshalAirport]
  · intro db g b hb hk
    simp [GetRegion, hb, hk, unmarshalRegion]

/-- Witness for C4: the error and success behaviours at concrete
stores. -/
theorem c4_witness :
    GetCountry usDB "FR" = .err (.wrap "get country" .eof)
  ∧ GetCountry ⟨[("Countries", ⟨[("XX", MV.prim (.int 7))], []⟩)]⟩ "XX"
      = .err (.wrap "get country" .typeMismatch)
  ∧ GetCountry usDB "US" = .ok ⟨"US", "United States"⟩
  ∧ GetAirport ⟨[("Airports", emptyBucket)]⟩ "KLAX"
      = .err (.wrap "get airport" .eof)
  ∧ GetRegion ⟨[("Regions", emptyBucket)]⟩ "US-WA"
      = .err (.wrap "get region" .eof) :=
  ⟨c4_accessor_errors.1 usDB "FR"
      ⟨[("US", marshalCountry ⟨"US", "United States"⟩)], []⟩
      (by decide) (by decide),
   c4_accessor_errors.2.1 ⟨[("Countries", ⟨[("XX", MV.prim (.int 7))], []⟩)]⟩
      "XX" ⟨[("XX", MV.prim (.int 7))], []⟩ (MV.prim (.int 7)) .typeMismatch
      (by decide) (by decide) (by rfl),
   c4_accessor_errors.2.2.1 usDB "US"
      ⟨[("US", marshalCountry ⟨"US", "United States"⟩)], []⟩
      (marshalCountry ⟨"US", "United States"⟩) ⟨"US", "United States"⟩
      (by decide) (by decide) (by rfl),
   c4_accessor_errors.2.2.2.1 ⟨[("Airports", emptyBucket)]⟩ "KLAX" emptyBucket
      (by decide) (by decide),
   c4_accessor_errors.2.2.2.2.1 ⟨[("Regions", emptyBucket)]⟩ "US-WA" emptyBucket
      (by decide) (by decide)⟩

/-- The airports.csv header as the model uses it (14 columns, covering
every index the loader reads). -/
def airportsHeader : Row :=
  ["id", "ident", "type", "name", "latitude_deg", "longitude_deg",
   "elevation_ft", "continent", "iso_country", "iso_region", "municipality",
   "scheduled_service", "gps_code", "iata_code"]

/-- An airports row whose elevation field is 2^63, one past MaxInt64:
strconv.ParseInt returns MaxInt64 together with ErrRange. -/
def ktstRow : Row :=
  ["1", "KTST", "small_airport", "Test Field", "47.5", "-122.3",
   "9223372036854775808", "NA", "US", "US-WA", "Seattle", "no", "KTST", "TST"]

/-- The record the loader stores for ktstRow: the discarded range error
leaves the clamped MaxInt64 elevation. -/
def ktstStored : Airport :=
  ⟨"KTST", "Test Field", .lit "47.5", .lit "-122.3", 9223372036854775807,
   "Seattle", "US-WA", "US", "NA", "TST"⟩

/-- The store after loading the single KTST row on a fresh database. -/
def ktstDB : DB := ⟨[("Airports", ⟨[("KTST", marshalAirport ktstStored)], []⟩)]⟩

/-- C8 counterexample: the elevation field of ktstRow fails to parse
(ErrRange), yet the stored value is the clamp MaxInt64 =
9223372036854775807, not the zero value the claim requires. -/
theorem c8_counterexample :
    loadAirports emptyDB [airportsHeader, ktstRow] = .ok ktstDB
  ∧ GetAirport ktstDB "KTST" = .ok ktstStored
  ∧ ktstStored.Elevation = 9223372036854775807
  ∧ ¬ ktstStored.Elevation = 0 := by
  refine ⟨by decide, by decide, by decide, by decide⟩

/-- C8 amended: in a row with the correct column count, a numeric field
that fails to parse syntactically is stored as the zero value of its
type (0 for integers, 0.0 for floats) and a lighted/closed field other
than "1" is stored as false, with the row's remaining fields loaded
normally; but an integer field that parses and then overflows int64 is
stored as ParseInt's clamped extreme (MaxInt64 here), not as zero. -/
theorem c8_parse_failure_defaults (r rr : Row) :
    (goIntSyntax (r.getD 6 "") = false → (rowToAirport r).Elevation = 0)
  ∧ (goFloatSyntax (r.getD 4 "") = false → (rowToAirport r).Latitude = GoFloat.zero)
  ∧ (rowToAirport r).Code = r.getD 1 ""
  ∧ (rowToAirport r).Name = r.getD 3 ""
  ∧ (rowToAirport r).City = r.getD 10 ""
  ∧ (rr.getD 6 "" ≠ "1" → (rowToRunway rr).Lighted = false)
  ∧ (rowToAirport ktstRow).Elevation = 2 ^ 63 - 1 := by
  refine ⟨?_, ?_, rfl, rfl, rfl, ?_, by decide⟩
  · intro h
    show goParseInt64 (r.getD 6 "") = 0
    simp only [goParseInt64, h]
    simp
  · intro h
    show goParseFloat (r.getD 4 "") = GoFloat.zero
    simp only [goParseFloat, h]
    simp
  · intro h
    simp only [rowToRunway]
    exact decide_eq_false h

/-- Witness for C8: concrete rows with a syntactically bad elevation and
latitude, and a runways row whose lighted column is "0". -/
theorem c8_witness :
    (rowToAirport ["1", "KBAD", "x", "Bad", "abc", "1.5", "xyz", "NA", "US",
        "US-WA", "Town", "no", "KBAD", "BAD"]).Elevation = 0
  ∧ (rowToAirport ["1", "KBAD", "x", "Bad", "abc", "1.5", "xyz", "NA", "US",
        "US-WA", "Town", "no", "KBAD", "BAD"]).Latitude = GoFloat.zero
  ∧ (rowToRunway ["1", "2", "KXYZ", "100", "10", "TURF", "0", "0", "01",
        "0", "0", "0", "0", "0", "19", "0", "0", "0", "0", "0"]).Lighted = false
  ∧ (rowToAirport ktstRow).Elevation = 2 ^ 63 - 1 := by
  have t := c8_parse_failure_defaults
    ["1", "KBAD", "x", "Bad", "abc", "1.5", "xyz", "NA", "US",
     "US-WA", "Town", "no", "KBAD", "BAD"]
    ["1", "2", "KXYZ", "100", "10", "TURF", "0", "0", "01",
     "0", "0", "0", "0", "0", "19", "0", "0", "0", "0", "0"]
  exact ⟨t.1 (by decide), t.2.1 (by decide), t.2.2.2.2.2.1 (by decide),
    t.2.2.2.2.2.2⟩

/-! Behaviour of the write loops on a file with a row-shape fault. -/

theorem airportsLoop_fieldCount (n : Nat) :
    ∀ (good : List Row) (bad : Row) (rest : List Row) (es : List (String × MV)),
      (∀ r ∈ good, r.length = n ∧ 14 ≤ r.length ∧ r.getD 1 "" ≠ "") →
      bad.length ≠ n →
      airportsLoop n es (good ++ bad :: rest)
        = .err (.wrap "airport read" .fieldCount) := by
  intro good
  induction good with
  | nil =>
    intro bad rest es _ hbad
    show airportsLoop n es (bad :: rest) = _
    simp only [airportsLoop]
    rw [if_neg hbad]
  | cons r t ih =>
    intro bad rest es h hbad
    obtain ⟨h1, h2, h3⟩ := h r (List.mem_cons_self r t)
    show airportsLoop n es (r :: (t ++ bad :: rest)) = _
    simp only [airportsLoop]
    rw [if_pos h1, if_pos h2, if_neg h3]
    exact ih bad rest (aptStep es r)
      (fun x hx => h x (List.mem_cons_of_mem r hx)) hbad

theorem countriesLoop_fieldCount (n : Nat) :
    ∀ (good : List Row) (bad : Row) (rest : List Row) (es : List (String × MV)),
      (∀ r ∈ good, r.length = n ∧ 3 ≤ r.length ∧ r.getD 1 "" ≠ "") →
      bad.length ≠ n →
      countriesLoop n es (good ++ bad :: rest)
        = .err (.wrap "country read" .fieldCount) := by
  intro good
  induction good with
  | nil =>
    intro bad rest es _ hbad
    show countriesLoop n es (bad :: rest) = _
    simp only [countriesLoop]
    rw [if_neg hbad]
  | cons r t ih =>
    intro bad rest es h hbad
    obtain ⟨h1, h2, h3⟩ := h r (List.mem_cons_self r t)
    show countriesLoop n es (r :: (t ++ bad :: rest)) = _
    simp only [countriesLoop]
    rw [if_pos h1, if_pos h2, if_neg h3]
    exact ih bad rest (ctyStep es r)
      (fun x hx => h x (List.mem_cons_of_mem r hx)) hbad

theorem regionsLoop_fieldCount (n : Nat) :
    ∀ (good : List Row) (bad : Row) (rest : List Row) (es : List (String × MV)),
      (∀ r ∈ good, r.length = n ∧ 6 ≤ r.length ∧ r.getD 1 "" ≠ "") →
      bad.length ≠ n →
      regionsLoop n es (good ++ bad :: rest)
        = .err (.wrap "region read" .fieldCount) := by
  intro good
  induction good with
  | nil =>
    intro bad rest es _ hbad
    show regionsLoop n es (bad :: rest) = _
    simp only [regionsLoop]
    rw [if_neg hbad]
  | cons r t ih =>
    intro bad rest es h hbad
    obtain ⟨h1, h2, h3⟩ := h r (List.mem_cons_self r t)
    show regionsLoop n es (r :: (t ++ bad :: rest)) = _
    simp only [regionsLoop]
    rw [if_pos h1, if_pos h2, if_neg h3]
    exact ih bad rest (rgnStep es r)
      (fun x hx => h x (List.mem_cons_of_mem r hx)) hbad

theorem runwaysLoop_shortRow :
    ∀ (good : List Row) (bad : Row) (rest : List Row)
      (subs : List (String × InnerBucket)),
      (∀ r ∈ good, 20 ≤ r.length ∧ r.getD 2 "" ≠ "") →
      bad.length < 20 →
      runwaysLoop subs (good ++ bad :: rest) = .panic "index out of range" := by
  intro good
  induction good with
  | nil =>
    intro bad rest subs _ hbad
    show runwaysLoop subs (bad :: rest) = _
    simp only [runwaysLoop]
    rw [if_neg (Nat.not_le.mpr hbad)]
  | cons r t ih =>
    intro bad rest subs h hbad
    obtain ⟨h1, h2⟩ := h r (List.mem_cons_self r t)
    show runwaysLoop subs (r :: (t ++ bad :: rest)) = _
    simp only [runwaysLoop]
    rw [if_pos h1, if_neg h2]
    exact ih bad rest (rwyStep subs r)
      (fun x hx => h x (List.mem_cons_of_mem r hx)) hbad

/-- A 21-column runways row (one column too many) for KBFI. -/
def kbfiRow : Row :=
  ["2001", "100", "KBFI", "10000", "200", "CONC", "1", "0",
   "14R", "47.52", "-122.30", "10", "135", "0",
   "32L", "47.53", "-122.29", "18", "315", "0", "EXTRA"]

/-- The record the loader stores for kbfiRow (note the end-1 swap). -/
def kbfiStored : Runway :=
  ⟨"KBFI", 10000, 200, "CONC", true, false,
   "14R", .lit "47.52", .lit "-122.30", 135, 10, 0,
   "32L", .lit "47.53", .lit "-122.29", 18, 315, 0⟩

/-- The store after loading the single KBFI row on a fresh database. -/
def kbfiDB : DB :=
  ⟨[("Runways", ⟨[], [("KBFI", ⟨[("14R/32L", marshalRunway kbfiStored)]⟩)]⟩)]⟩

/-- C5 counterexample: kbfiRow has 21 columns where the runways schema
has 20, a malformed row at position 1 of the file; the runways loader,
whose reader disables the column-count check, neither aborts nor rolls
back — it commits and the record persists. -/
theorem c5_counterexample :
    loadRunways emptyDB [runwaysHeader, kbfiRow] = .ok kbfiDB
  ∧ kbfiRow.length = 21
  ∧ ¬ kbfiRow.length = 20
  ∧ GetRunways kbfiDB "KBFI" = .ok [kbfiStored] := by
  refine ⟨by decide, by decide, by decide, by decide⟩

/-- C5 amended: for airports, countries and regions a row whose column
count differs from the header's aborts the whole batch transaction with
the wrapped field-count read error, rolling back every write of that
file (the caller's store is unchanged, so on a fresh store zero records
of that kind persist); the runways reader disables the column-count
check, so a row with at least 20 columns is loaded no matter its count
(the transaction commits), and a row with fewer than 20 columns makes
the loader panic with an index out of range (the transaction still
rolls back, but no error is returned). -/
theorem c5_row_shape_fault (db : DB) :
    (∀ (hdr : Row) (good : List Row) (bad : Row) (rest : List Row),
      (∀ r ∈ good, r.length = hdr.length ∧ 14 ≤ r.length ∧ r.getD 1 "" ≠ "") →
      bad.length ≠ hdr.length →
      loadAirports db (hdr :: (good ++ bad :: rest))
        = .err (.wrap "airport read" .fieldCount))
  ∧ (∀ (hdr : Row) (good : List Row) (bad : Row) (rest : List Row),
      (∀ r ∈ good, r.length = hdr.length ∧ 3 ≤ r.length ∧ r.getD 1 "" ≠ "") →
      bad.length ≠ hdr.length →
      loadCountries db (hdr :: (good ++ bad :: rest))
        = .err (.wrap "country read" .fieldCount))
  ∧ (∀ (hdr : Row) (good : List Row) (bad : Row) (rest : List Row),
      (∀ r ∈ good, r.length = hdr.length ∧ 6 ≤ r.length ∧ r.getD 1 "" ≠ "") →
      bad.length ≠ hdr.length →
      loadRegions db (hdr :: (good ++ bad :: rest))
        = .err (.wrap "region read" .fieldCount))
  ∧ (∀ (hdr : Row) (good : List Row) (bad : Row) (rest : List Row),
      (∀ r ∈ good, 20 ≤ r.length ∧ r.getD 2 "" ≠ "") →
      bad.length < 20 →
      loadRunways db (hdr :: (good ++ bad :: rest))
        = .panic "index out of range")
  ∧ (∀ (hdr : Row) (rows : List Row),
      (∀ r ∈ rows, 20 ≤ r.length ∧ r.getD 2 "" ≠ "") →
      loadRunways db (hdr :: rows)
        = .ok ⟨putA db.buckets "Runways"
            ⟨(bucketOr db "Runways").entries,
             runSteps rwyStep (bucketOr db "Runways").subs rows⟩⟩) := by
  refine ⟨?_, ?_, ?_, ?_, ?_⟩
  · intro hdr good bad rest h hbad
    simp only [loadAirports]
    rw [airportsLoop_fieldCount hdr.length good bad rest _ h hbad]
  · intro hdr good bad rest h hbad
    simp only [loadCountries]
    rw [countriesLoop_fieldCount hdr.length good bad rest _ h hbad]
  · intro hdr good bad rest h hbad
    simp only [loadRegions]
    rw [regionsLoop_fieldCount hdr.length good bad rest _ h hbad]
  · intro hdr good bad rest h hbad
    simp only [loadRunways]
    rw [runwaysLoop_shortRow good bad rest _ h hbad]
  · intro hdr rows h
    simp only [loadRunways]
    rw [runwaysLoop_run rows _ h]

/-- The regions.csv header. -/
def regionsHeader : Row :=
  ["id", "code", "local_code", "name", "continent", "iso_country",
   "wikipedia_link", "keywords"]

/-- Witness for C5: a short airports row, a short countries row, a short
regions row, a too-short runways row (panic), and the tolerated
21-column runways row. -/
theorem c5_witness :
    loadAirports emptyDB [airportsHeader, ["1", "KSHORT"]]
      = .err (.wrap "airport read" .fieldCount)
  ∧ loadCountries emptyDB [countriesHeader, ["1"]]
      = .err (.wrap "country read" .fieldCount)
  ∧ loadRegions emptyDB [regionsHeader, ["1"]]
      = .err (.wrap "region read" .fieldCount)
  ∧ loadRunways emptyDB [runwaysHeader, ["3001", "101", "KPAE"]]
      = .panic "index out of range"
  ∧ loadRunways emptyDB (runwaysHeader :: [kbfiRow])
      = .ok ⟨putA emptyDB.buckets "Runways"
          ⟨(bucketOr emptyDB "Runways").entries,
           runSteps rwyStep (bucketOr emptyDB "Runways").subs [kbfiRow]⟩⟩ :=
  ⟨(c5_row_shape_fault emptyDB).1 airportsHeader [] ["1", "KSHORT"] []
      (fun r hr => absurd hr (List.not_mem_nil r)) (by decide),
   (c5_row_shape_fault emptyDB).2.1 countriesHeader [] ["1"] []
      (fun r hr => absurd hr (List.not_mem_nil r)) (by decide),
   (c5_row_shape_fault emptyDB).2.2.1 regionsHeader [] ["1"] []
      (fun r hr => absurd hr (List.not_mem_nil r)) (by decide),
   (c5_row_shape_fault emptyDB).2.2.2.1 runwaysHeader [] ["3001", "101", "KPAE"] []
      (fun r hr => absurd hr (List.not_mem_nil r)) (by decide),
   (c5_row_shape_fault emptyDB).2.2.2.2 runwaysHeader [kbfiRow] (by decide)⟩

/-! The committed store of each loader on a well-formed file, and
idempotence of re-running a loader. -/

theorem putA_bucketOr_idem (bs : List (String × Bucket)) (name : String)
    (B : Bucket) : bucketOr ⟨putA bs name B⟩ name = B := by
  show (lookupA (putA bs name B) name).getD emptyBucket = B
  rw [lookupA_putA_same]
  rfl

theorem loadAirports_wf_eq (db : DB) (hdr : Row) (rows : List Row)
    (hw : ∀ r ∈ rows, r.length = hdr.length ∧ 14 ≤ r.length ∧ r.getD 1 "" ≠ "") :
    loadAirports db (hdr :: rows)
      = .ok ⟨putA db.buckets "Airports"
          ⟨runSteps aptStep (bucketOr db "Airports").entries rows,
           (bucketOr db "Airports").subs⟩⟩ := by
  simp only [loadAirports]
  rw [airportsLoop_run hdr.length rows (bucketOr db "Airports").entries hw]

theorem loadCountries_wf_eq (db : DB) (hdr : Row) (rows : List Row)
    (hw : ∀ r ∈ rows, r.length = hdr.length ∧ 3 ≤ r.length ∧ r.getD 1 "" ≠ "") :
    loadCountries db (hdr :: rows)
      = .ok ⟨putA db.buckets "Countries"
          ⟨runSteps ctyStep (bucketOr db "Countries").entries rows,
           (bucketOr db "Countries").subs⟩⟩ := by
  simp only [loadCountries]
  rw [countriesLoop_run hdr.length rows (bucketOr db "Countries").entries hw]

theorem loadRegions_wf_eq (db : DB) (hdr : Row) (rows : List Row)
    (hw : ∀ r ∈ rows, r.length = hdr.length ∧ 6 ≤ r.length ∧ r.getD 1 "" ≠ "") :
    loadRegions db (hdr :: rows)
      = .ok ⟨putA db.buckets "Regions"
          ⟨runSteps rgnStep (bucketOr db "Regions").entries rows,
           (bucketOr db "Regions").subs⟩⟩ := by
  simp only [loadRegions]
  rw [regionsLoop_run hdr.length rows (bucketOr db "Regions").entries hw]

theorem loadRunways_wf_eq (db : DB) (hdr : Row) (rows : List Row)
    (hw : ∀ r ∈ rows, 20 ≤ r.length ∧ r.getD 2 "" ≠ "") :
    loadRunways db (hdr :: rows)
      = .ok ⟨putA db.buckets "Runways"
          ⟨(bucketOr db "Runways").entries,
           runSteps rwyStep (bucketOr db "Runways").subs rows⟩⟩ := by
  simp only [loadRunways]
  rw [runwaysLoop_run rows (bucketOr db "Runways").subs hw]

theorem loadAirports_idem {db : DB} {f : SourceFile} (hwf : wfAirportsFile f)
    {s : DB} (h : loadAirports db f = .ok s) : loadAirports s f = .ok s := by
  cases f with
  | nil =>
    have h0 : loadAirports db []
        = .ok ⟨putA db.buckets "Airports" (bucketOr db "Airports")⟩ := rfl
    rw [h0, Res.ok.injEq] at h
    subst h
    have h1 : loadAirports (⟨putA db.buckets "Airports" (bucketOr db "Airports")⟩ : DB) []
        = .ok ⟨putA (putA db.buckets "Airports" (bucketOr db "Airports")) "Airports"
            (bucketOr (⟨putA db.buckets "Airports" (bucketOr db "Airports")⟩ : DB)
              "Airports")⟩ := rfl
    rw [h1, putA_bucketOr_idem, putA_putA_same]
  | cons hdr rows =>
    have hw : ∀ r ∈ rows, r.length = hdr.length ∧ 14 ≤ r.length ∧ r.getD 1 "" ≠ "" :=
      hwf
    rw [loadAirports_wf_eq db hdr rows hw, Res.ok.injEq] at h
    subst h
    rw [loadAirports_wf_eq _ hdr rows hw, putA_bucketOr_idem]
    dsimp only
    rw [runSteps_idem aptStep (fun a b => a.getD 1 "" = b.getD 1 "")
      (fun a => rfl) aptStep_collapse aptStep_comm rows
      (bucketOr db "Airports").entries]
    rw [putA_putA_same]

theorem loadCountries_idem {db : DB} {f : SourceFile} (hwf : wfCountriesFile f)
    {s : DB} (h : loadCountries db f = .ok s) : loadCountries s f = .ok s := by
  cases f with
  | nil =>
    have h0 : loadCountries db []
        = .ok ⟨putA db.buckets "Countries" (bucketOr db "Countries")⟩ := rfl
    rw [h0, Res.ok.injEq] at h
    subst h
    have h1 : loadCountries (⟨putA db.buckets "Countries" (bucketOr db "Countries")⟩ : DB) []
        = .ok ⟨putA (putA db.buckets "Countries" (bucketOr db "Countries")) "Countries"
            (bucketOr (⟨putA db.buckets "Countries" (bucketOr db "Countries")⟩ : DB)
              "Countries")⟩ := rfl
    rw [h1, putA_bucketOr_idem, putA_putA_same]
  | cons hdr rows =>
    have hw : ∀ r ∈ rows, r.length = hdr.length ∧ 3 ≤ r.length ∧ r.getD 1 "" ≠ "" :=
      hwf
    rw [loadCountries_wf_eq db hdr rows hw, Res.ok.injEq] at h
    subst h
    rw [loadCountries_wf_eq _ hdr rows hw, putA_bucketOr_idem]
    dsimp only
    rw [runSteps_idem ctyStep (fun a b => a.getD 1 "" = b.getD 1 "")
      (fun a => rfl) ctyStep_collapse ctyStep_comm rows
      (bucketOr db "Countries").entries]
    rw [putA_putA_same]

theorem loadRegions_idem {db : DB} {f : SourceFile} (hwf : wfRegionsFile f)
    {s : DB} (h : loadRegions db f = .ok s) : loadRegions s f = .ok s := by
  cases f with
  | nil =>
    have h0 : loadRegions db []
        = .ok ⟨putA db.buckets "Regions" (bucketOr db "Regions")⟩ := rfl
    rw [h0, Res.ok.injEq] at h
    subst h
    have h1 : loadRegions (⟨putA db.buckets "Regions" (bucketOr db "Regions")⟩ : DB) []
        = .ok ⟨putA (putA db.buckets "Regions" (bucketOr db "Regions")) "Regions"
            (bucketOr (⟨putA db.buckets "Regions" (bucketOr db "Regions")⟩ : DB)
              "Regions")⟩ := rfl
    rw [h1, putA_bucketOr_idem, putA_putA_same]
  | cons hdr rows =>
    have hw : ∀ r ∈ rows, r.length = hdr.length ∧ 6 ≤ r.length ∧ r.getD 1 "" ≠ "" :=
      hwf
    rw [loadRegions_wf_eq db hdr rows hw, Res.ok.injEq] at h
    subst h
    rw [loadRegions_wf_eq _ hdr rows hw, putA_bucketOr_idem]
    dsimp only
    rw [runSteps_idem rgnStep (fun a b => a.getD 1 "" = b.getD 1 "")
      (fun a => rfl) rgnStep_collapse rgnStep_comm rows
      (bucketOr db "Regions").entries]
    rw [putA_putA_same]

theorem loadRunways_idem {db : DB} {f : SourceFile} (hwf : wfRunwaysFile f)
    {s : DB} (h : loadRunways db f = .ok s) : loadRunways s f = .ok s := by
  cases f with
  | nil =>
    have h0 : loadRunways db []
        = .ok ⟨putA db.buckets "Runways" (bucketOr db "Runways")⟩ := rfl
    rw [h0, Res.ok.injEq] at h
    subst h
    have h1 : loadRunways (⟨putA db.buckets "Runways" (bucketOr db "Runways")⟩ : DB) []
        = .ok ⟨putA (putA db.buckets "Runways" (bucketOr db "Runways")) "Runways"
            (bucketOr (⟨putA db.buckets "Runways" (bucketOr db "Runways")⟩ : DB)
              "Runways")⟩ := rfl
    rw [h1, putA_bucketOr_idem, putA_putA_same]
  | cons hdr rows =>
    have hw : ∀ r ∈ rows, 20 ≤ r.length ∧ r.getD 2 "" ≠ "" := hwf
    rw [loadRunways_wf_eq db hdr rows hw, Res.ok.injEq] at h
    subst h
    rw [loadRunways_wf_eq _ hdr rows hw, putA_bucketOr_idem]
    dsimp only
    rw [runSteps_idem rwyStep rwySame
      (fun a => ⟨rfl, rfl⟩) rwyStep_collapse rwyStep_comm rows
      (bucketOr db "Runways").subs]
    rw [putA_putA_same]

/-- C6: for every well-formed source file of each entity kind and every
store state, a second run of the loader on the state the first run
committed recommits exactly that state — re-running overwrites every key
with an identical derivation, so the store (key set and stored values)
is unchanged. -/
theorem c6_loader_idempotent (db : DB) (fa fc fg fr : SourceFile) :
    (wfAirportsFile fa → ∀ s : DB,
      loadAirports db fa = .ok s → loadAirports s fa = .ok s)
  ∧ (wfCountriesFile fc → ∀ s : DB,
      loadCountries db fc = .ok s → loadCountries s fc = .ok s)
  ∧ (wfRegionsFile fg → ∀ s : DB,
      loadRegions db fg = .ok s → loadRegions s fg = .ok s)
  ∧ (wfRunwaysFile fr → ∀ s : DB,
      loadRunways db fr = .ok s → loadRunways s fr = .ok s) :=
  ⟨fun hw _s h => loadAirports_idem hw h,
   fun hw _s h => loadCountries_idem hw h,
   fun hw _s h => loadRegions_idem hw h,
   fun hw _s h => loadRunways_idem hw h⟩

/-- A regions row for US-WA and the store its load produces. -/
def waFile : SourceFile :=
  [regionsHeader,
   ["1", "US-WA", "WA", "Washington", "NA", "US", "wiki", ""]]

/-- The store after loading waFile on a fresh database. -/
def waDB : DB :=
  ⟨[("Regions",
     ⟨[("US-WA", marshalRegion ⟨"US-WA", "WA", "Washington", "US"⟩)], []⟩)]⟩

/-- Witness for C6: re-running each loader on the store its first run
produced leaves that store unchanged, on concrete one-row files. -/
theorem c6_witness :
    loadAirports ktstDB [airportsHeader, ktstRow] = .ok ktstDB
  ∧ loadCountries usDB usFile = .ok usDB
  ∧ loadRegions waDB waFile = .ok waDB
  ∧ loadRunways kseaDB [runwaysHeader, kseaRow] = .ok kseaDB :=
  ⟨(c6_loader_idempotent emptyDB [airportsHeader, ktstRow] usFile waFile
      [runwaysHeader, kseaRow]).1 (by decide) ktstDB (by decide),
   (c6_loader_idempotent emptyDB [airportsHeader, ktstRow] usFile waFile
      [runwaysHeader, kseaRow]).2.1
      (by show wfCountriesFile [countriesHeader, ["1", "US", "United States"]]
          decide)
      usDB (by decide),
   (c6_loader_idempotent emptyDB [airportsHeader, ktstRow] usFile waFile
      [runwaysHeader, kseaRow]).2.2.1
      (by show wfRegionsFile [regionsHeader,
            ["1", "US-WA", "WA", "Washington", "NA", "US", "wiki", ""]]
          decide)
      waDB (by decide),
   (c6_loader_idempotent emptyDB [airportsHeader, ktstRow] usFile waFile
      [runwaysHeader, kseaRow]).2.2.2 (by decide) kseaDB (by decide)⟩

/-- C1: starting from an OpenDB on a fresh store, Populated is false at
every observable point of a Load — after zero, one, two, three and all
four loader transactions, even with all four entity namespaces fully
written — and becomes true exactly when the final Meta transaction
commits; a successful Load returns the Meta-committed store; and when
any one loader fails, Load returns that loader's error unchanged and the
store the caller still holds has the population flag unset. -/
theorem c1_population_guard
    (fa fr fc fg fa2 fr2 fc2 fg2 : SourceFile) (s1 s2 s3 s4 : DB)
    (ea er ec eg : Err)
    (h1 : loadAirports emptyDB fa = .ok s1)
    (h2 : loadRunways s1 fr = .ok s2)
    (h3 : loadCountries s2 fc = .ok s3)
    (h4 : loadRegions s3 fg = .ok s4)
    (hfa : loadAirports emptyDB fa2 = .err ea)
    (hfr : loadRunways s1 fr2 = .err er)
    (hfc : loadCountries s2 fc2 = .err ec)
    (hfg : loadRegions s3 fg2 = .err eg) :
    Populated emptyDB = false
  ∧ Populated s1 = false ∧ Populated s2 = false
  ∧ Populated s3 = false ∧ Populated s4 = false
  ∧ Load emptyDB fa fr fc fg = .ok (metaCommit s4)
  ∧ Populated (metaCommit s4) = true
  ∧ Load emptyDB fa2 fr fc fg = .err ea
  ∧ Load emptyDB fa fr2 fc fg = .err er
  ∧ Load emptyDB fa fr fc2 fg = .err ec
  ∧ Load emptyDB fa fr fc fg2 = .err eg := by
  have m0 : lookupA emptyDB.buckets "Meta" = none := rfl
  have m1 : lookupA s1.buckets "Meta" = none := (loadAirports_meta h1).trans m0
  have m2 : lookupA s2.buckets "Meta" = none := (loadRunways_meta h2).trans m1
  have m3 : lookupA s3.buckets "Meta" = none := (loadCountries_meta h3).trans m2
  have m4 : lookupA s4.buckets "Meta" = none := (loadRegions_meta h4).trans m3
  refine ⟨Populated_of_meta_none m0, Populated_of_meta_none m1,
    Populated_of_meta_none m2, Populated_of_meta_none m3,
    Populated_of_meta_none m4, ?_, Populated_metaCommit s4, ?_, ?_, ?_, ?_⟩
  · show Load emptyDB fa fr fc fg = .ok (metaCommit s4)
    unfold Load
    simp only [h1, h2, h3, h4]
  · unfold Load
    simp only [hfa]
  · unfold Load
    simp only [h1, hfr]
  · unfold Load
    simp only [h1, h2, hfc]
  · unfold Load
    simp only [h1, h2, h3, hfg]

/-- The intermediate stores of a Load of four empty source files on a
fresh database, and the failing files and errors used by the Load
failure clauses of the C1 witness. -/
def s1empty : DB := ⟨[("Airports", emptyBucket)]⟩

/-- Store after the runways transaction of the same Load. -/
def s2empty : DB := ⟨[("Airports", emptyBucket), ("Runways", emptyBucket)]⟩

/-- Store after the countries transaction. -/
def s3empty : DB :=
  ⟨[("Airports", emptyBucket), ("Countries", emptyBucket),
    ("Runways", emptyBucket)]⟩

/-- Store after the regions transaction. -/
def s4empty : DB :=
  ⟨[("Airports", emptyBucket), ("Countries", emptyBucket),
    ("Regions", emptyBucket), ("Runways", emptyBucket)]⟩

/-- A runways file whose only data row has 20 columns but an empty
airport code: CreateBucketIfNotExists fails inside the transaction. -/
def emptyCodeRunwaysFile : SourceFile :=
  [runwaysHeader,
   ["1", "2", "", "100", "10", "TURF", "0", "0", "01",
    "0", "0", "0", "0", "0", "19", "0", "0", "0", "0", "0"]]

/-- Witness for C1: the concrete Load of four empty files from a fresh
store, with one concrete failing file per loader. -/
theorem c1_witness :
    Populated emptyDB = false
  ∧ Populated s1empty = false ∧ Populated s2empty = false
  ∧ Populated s3empty = false ∧ Populated s4empty = false
  ∧ Load emptyDB [] [] [] [] = .ok (metaCommit s4empty)
  ∧ Populated (metaCommit s4empty) = true
  ∧ Load emptyDB [airportsHeader, ["1", "KSHORT"]] [] [] []
      = .err (.wrap "airport read" .fieldCount)
  ∧ Load emptyDB [] emptyCodeRunwaysFile [] []
      = .err (.wrap "bucket creation" .bucketNameRequired)
  ∧ Load emptyDB [] [] [countriesHeader, ["1"]] []
      = .err (.wrap "country read" .fieldCount)
  ∧ Load emptyDB [] [] [] [regionsHeader, ["1"]]
      = .err (.wrap "region read" .fieldCount) :=
  c1_population_guard [] [] [] []
    [airportsHeader, ["1", "KSHORT"]] emptyCodeRunwaysFile
    [countriesHeader, ["1"]] [regionsHeader, ["1"]]
    s1empty s2empty s3empty s4empty
    (.wrap "airport read" .fieldCount)
    (.wrap "bucket creation" .bucketNameRequired)
    (.wrap "country read" .fieldCount)
    (.wrap "region read" .fieldCount)
    (by decide) (by decide) (by decide) (by decide)
    (by decide) (by decide) (by decide) (by decide)

/-- Witness for C9: Reload of four empty source files on a fresh store
coincides with the fresh Load of the same files, and the store that Load
commits is populated. -/
theorem c9_witness :
    Reload emptyDB [] [] [] [] = Load emptyDB [] [] [] []
  ∧ Populated (metaCommit s4empty) = true :=
  ⟨(c9_reload_fresh_store emptyDB [] [] [] []).2.2.1,
   (c9_reload_fresh_store emptyDB [] [] [] []).2.2.2 (metaCommit s4empty)
     (by decide)⟩

end Aptdata
